import Mathlib

/-!
# vue-multifile-loader: the assembly engine of `src/index.js`

A shallow embedding of the webpack loader exported by `src/index.js`.  The loader is a
function from the loader context (`this`), the process environment and the merged options
to the text of a generated module.  Everything that the loader only calls (Node's `path`
and `fs`, `loader-utils`, `hash-sum`, `gen-id`, `try-require`) is a field of `Host`; the
fragments it pushes are the exact strings of the source.

The array `outputs` is a `List String` (push is `++ [x]`), `this.emitError` appends to a
list of reported errors, and a `throw` is `Except.error`.
-/

set_option autoImplicit false

namespace VueMultifileLoader

/-! ## JavaScript helpers -/

/-- Lower-case hexadecimal digit of a number below sixteen. -/
def hexDigit (n : Nat) : Char :=
  if n < 10 then Char.ofNat (48 + n) else Char.ofNat (87 + n)

/-- The escape `JSON.stringify` writes for one character of a string. -/
def jsonEscapeChar (c : Char) : List Char :=
  if c = '"' then ['\\', '"']
  else if c = '\\' then ['\\', '\\']
  else if c = '\x08' then ['\\', 'b']
  else if c = '\x0c' then ['\\', 'f']
  else if c = '\n' then ['\\', 'n']
  else if c = '\r' then ['\\', 'r']
  else if c = '\t' then ['\\', 't']
  else if c.toNat < 32 then ['\\', 'u', '0', '0', hexDigit (c.toNat / 16), hexDigit (c.toNat % 16)]
  else [c]

/-- `JSON.stringify(s)` for a string `s`. -/
def jsonString (s : String) : String :=
  "\"" ++ String.mk (s.data.flatMap jsonEscapeChar) ++ "\""

/-- `JSON.stringify(b)` for a boolean. -/
def jsonBool (b : Bool) : String :=
  if b then "true" else "false"

/-- `JSON.stringify` of an object literal whose property values are already serialised;
a property whose value is `undefined` (`none`) is left out. -/
def jsonObject (fields : List (String × Option String)) : String :=
  "\x7b" ++ String.intercalate ","
    (fields.filterMap fun kv => kv.2.map fun j => jsonString kv.1 ++ ":" ++ j) ++ "\x7d"

/-- Truthiness of a value that is either a string or `false`/`undefined` (`none`). -/
def jsTruthy (v : Option String) : Bool :=
  match v with
  | some s => s != ""
  | none => false

/-- Names every object literal inherits from `Object.prototype`; the `in` operator
answers `true` for them on `{}`. -/
def objectPrototypeKeys : List String :=
  ["constructor", "__defineGetter__", "__defineSetter__", "hasOwnProperty",
   "__lookupGetter__", "__lookupSetter__", "isPrototypeOf", "propertyIsEnumerable",
   "toString", "valueOf", "__proto__", "toLocaleString"]

/-- The expression `key in obj` for an object created by `{}` whose own keys are `own`. -/
def jsIn (key : String) (own : List String) : Bool :=
  decide (key ∈ own) || decide (key ∈ objectPrototypeKeys)

/-! ## Inputs -/

/-- The value of `options.extractCSS`. -/
inductive ExtractCSS where
  /-- a falsy value (absent, `false`) -/
  | falsy
  /-- an object whose `extract` property is a function (an ExtractTextPlugin instance);
  the function maps the `use` and `fallback` loaders to a loader string -/
  | plugin (extract : String → String → String)
  /-- any other truthy value, such as `true` -/
  | truthy

/-- The object `options.loaders`: for each kind, the override if the key is supplied. -/
structure LoaderOverrides where
  html : Option String := none
  css : Option String := none
  js : Option String := none

/-- The three loader references `{ html, css, js }`. -/
structure Loaders where
  html : String
  css : String
  js : String
deriving DecidableEq, Repr

/-- The merged options object (`this.options.vue` overlaid with the loader query). -/
structure Options where
  hashKey : Option String := none
  cssSourceMap : Option Bool := none
  /-- truthiness of `options.postcss` -/
  postcss : Bool := false
  /-- `JSON.stringify(options.buble)` when `options.buble` is set -/
  buble : Option String := none
  /-- `JSON.stringify(options.transformToRequire)` when set -/
  transformToRequire : Option String := none
  preserveWhitespace : Option Bool := none
  /-- the value of `options.compilerModules` when it is a string -/
  compilerModules : Option String := none
  extractCSS : ExtractCSS := ExtractCSS.falsy
  loaders : LoaderOverrides := {}
  /-- truthiness of `options.inject` -/
  inject : Bool := false
  /-- truthiness of `options.esModule` -/
  esModule : Bool := false

/-- The loader context `this`, the process environment and the external helpers. -/
structure Host where
  /-- `this.options.target` -/
  target : String
  /-- `this.minimize` -/
  minimize : Bool
  /-- `process.env.NODE_ENV` -/
  nodeEnv : Option String
  /-- `this.sourceMap` -/
  sourceMap : Bool
  /-- `this.resourcePath` -/
  resourcePath : String
  /-- `this.request` -/
  request : String
  /-- `this._compiler && this._compiler.context` -/
  compilerContext : Option String
  /-- `this.options.context` -/
  optionsContext : Option String
  /-- `process.cwd()` -/
  cwd : String
  /-- `!!tryRequire('babel-loader')` -/
  hasBabel : Bool
  /-- `!!tryRequire('buble-loader')` -/
  hasBuble : Bool
  /-- `tryRequire('extract-text-webpack-plugin')`: its `extract`, if it can be required -/
  extractTextPlugin : Option (String → String → String)
  styleCompilerPath : String
  templateCompilerPath : String
  componentNormalizerPath : String
  /-- `path.dirname` -/
  dirname : String → String
  /-- `path.basename(p, ext)` -/
  basename : String → String → String
  /-- `path.join(a, b)` -/
  join : String → String → String
  /-- `fs.existsSync` -/
  existsSync : String → Bool
  /-- `genId(file, context, key)` of vue-loader -/
  genId : String → String → Option String → String
  /-- `hash` of hash-sum -/
  hash : String → String
  /-- `loaderUtils.stringifyRequest(this, request)` -/
  stringifyRequest : String → String

/-! ## Flags and identifiers (lines 18-28) -/

def isServer (h : Host) : Bool :=
  h.target == "node"

def isProduction (h : Host) : Bool :=
  h.minimize || h.nodeEnv == some "production"

def vuePath (h : Host) : String :=
  h.dirname h.resourcePath

def vueName (h : Host) : String :=
  h.basename (vuePath h) ".vue"

def vueDir (h : Host) : String :=
  h.dirname (vuePath h)

def context (h : Host) : String :=
  if jsTruthy h.compilerContext then h.compilerContext.getD ""
  else if jsTruthy h.optionsContext then h.optionsContext.getD ""
  else h.cwd

def moduleId (h : Host) (o : Options) : String :=
  "data-v-" ++ h.genId (vuePath h) (context h) o.hashKey

/-! ## Loader options (lines 30-55) -/

def cssLoaderOptions (h : Host) (o : Options) : String :=
  "?" ++ jsonObject
    [("sourceMap", some (jsonBool (!isProduction h && h.sourceMap && (o.cssSourceMap != some false)))),
     ("minimize", some (jsonBool (isProduction h))),
     ("modules", some (jsonBool true)),
     ("importLoaders", some "1"),
     ("localIdentName", some (jsonString (vueName h ++ "_[local]")))]

def styleCompilerOptions (h : Host) (o : Options) : String :=
  "?" ++ jsonObject
    [("vue", some (jsonBool true)),
     ("id", some (jsonString (moduleId h o))),
     ("scoped", some (jsonBool false)),
     ("hasInlineConfig", some (jsonBool o.postcss))]

def bubleOptions (h : Host) (o : Options) : String :=
  match h.hasBuble, o.buble with
  | true, some j => "?" ++ j
  | _, _ => ""

def templateCompilerOptions (h : Host) (o : Options) : String :=
  "?" ++ jsonObject
    [("id", some (jsonString (moduleId h o))),
     ("transformToRequire", o.transformToRequire),
     ("preserveWhitespace", o.preserveWhitespace.map jsonBool),
     ("buble", o.buble),
     ("compilerModules", o.compilerModules.map jsonString)]

/-! ## Requires and loader resolution (lines 57-87) -/

def getRequirePath (h : Host) (loader filePath : String) : String :=
  h.stringifyRequest ("!!" ++ loader ++ "!" ++ filePath)

def getRequire (h : Host) (loader filePath : String) : String :=
  "require(" ++ getRequirePath h loader filePath ++ ")"

/-- The message of the error thrown when no extractor can be found (line 69). -/
def missingExtractorMessage : String :=
  "[vue-multifile-loader] extractCSS: true requires extract-text-webpack-plugin as a peer dependency."

/-- Lines 60-76; only called when `options.extractCSS` is truthy. -/
def getCSSExtractLoader (h : Host) (o : Options) : Except String String :=
  let extractor : Except String (String → String → String) :=
    match o.extractCSS with
    | ExtractCSS.plugin extract => Except.ok extract
    | _ =>
      match h.extractTextPlugin with
      | some extract => Except.ok extract
      | none => Except.error missingExtractorMessage
  match extractor with
  | Except.ok extract =>
    Except.ok (extract ("css-loader" ++ cssLoaderOptions h o ++ "!import-global-loader") "vue-style-loader")
  | Except.error e => Except.error e

/-- Lines 78-83. -/
def defaultLoaders (h : Host) (o : Options) : Except String Loaders :=
  let css : Except String String :=
    match o.extractCSS with
    | ExtractCSS.falsy =>
      Except.ok ("vue-style-loader!css-loader" ++ cssLoaderOptions h o ++ "!" ++ h.styleCompilerPath
        ++ styleCompilerOptions h o ++ "!import-global-loader")
    | _ => getCSSExtractLoader h o
  match css with
  | Except.ok css =>
    Except.ok
      { html := h.templateCompilerPath ++ templateCompilerOptions h o
        css := css
        js := if h.hasBuble then "buble-loader" ++ bubleOptions h o
              else if h.hasBabel then "babel-loader" else "" }
  | Except.error e => Except.error e

/-- The call `Object.assign({}, defaultLoaders, options.loaders)` on the three kinds. -/
def assignLoaders (defaults : Loaders) (overrides : LoaderOverrides) : Loaders :=
  { html := match overrides.html with
            | some l => l
            | none => defaults.html
    css := match overrides.css with
           | some l => l
           | none => defaults.css
    js := match overrides.js with
          | some l => l
          | none => defaults.js }

/-- Line 87: the constant `loaders`. -/
def loaders (h : Host) (o : Options) : Except String Loaders :=
  match defaultLoaders h o with
  | Except.ok d => Except.ok (assignLoaders d o.loaders)
  | Except.error e => Except.error e

/-! ## Emitted fragments -/

/-- Line 96. -/
def disposedFlag : String := "var disposed = false;"

/-- Line 109. -/
def injectStyleHead : String := "function injectStyle (ssrContext) \x7b"

/-- Line 111. -/
def disposedGuard : String := "    if (disposed) return;"

/-- Line 113. -/
def scratchDecl : String := "var i;"

/-- Line 130. -/
def cssModulesDecl : String := "var cssModules = \x7b\x7d;"

/-- Line 122: the function `invokeStyle`, chosen by `isServer && hasVueStyleLoader`. -/
def invokeStyle (isServer hasVueStyleLoader : Bool) (code : String) : String :=
  if isServer && hasVueStyleLoader then
    ";(i=" ++ code ++ ",i.__inject__&&i.__inject__(ssrContext),i)\n"
  else
    "  " ++ code ++ "\n"

/-- Line 134: the message passed to `this.emitError`. -/
def duplicateNameError (moduleName : String) : String :=
  "CSS module name \"" ++ moduleName ++ "\" is not unique!"

/-- Lines 145-150: binding of the compiled CSS module and merge with the inherited one. -/
def bindFragment (moduleName requireString : String) : String :=
  "\n                        cssModules[\"" ++ moduleName ++ "\"] = " ++ requireString
  ++ ";\n                        var superModules = this[\"" ++ moduleName
  ++ "\"];\n                        if (superModules && this.$options.name === superModules.root)\n                            cssModules[\""
  ++ moduleName ++ "\"] = Object.assign(\x7b\x7d, superModules, cssModules[\"" ++ moduleName
  ++ "\"]);\n                    "

/-- Line 153: the direct assignment passed to `invokeStyle` in non-hot builds. -/
def assignCode (moduleName : String) : String :=
  "this[\"" ++ moduleName ++ "\"] = cssModules[\"" ++ moduleName ++ "\"]"

/-- Line 158: the registry read passed to `invokeStyle` in hot builds. -/
def registryCode (moduleName : String) : String :=
  "cssModules[\"" ++ moduleName ++ "\"]"

/-- Lines 159-162: the accessor defined on the instance in hot builds. -/
def accessorFragment (moduleName : String) : String :=
  "Object.defineProperty(this, \"" ++ moduleName
  ++ "\", \x7b\n                            get: function () \x7b return cssModules[\""
  ++ moduleName
  ++ "\"] \x7d,\n                            configurable: true,\n                        \x7d);"

/-- Lines 166-179: the accept handler of one CSS-module asset. -/
def acceptFragment (requirePath moduleName requireString moduleId : String) : String :=
  "\n                            module.hot && module.hot.accept([" ++ requirePath
  ++ "], function () \x7b\n                                // 1. check if style has been injected\n                                var oldLocals = cssModules['"
  ++ moduleName
  ++ "'];\n                                if (!oldLocals) return;\n                                // 2. re-import (side effect: updates the <style>)\n                                var newLocals = "
  ++ requireString
  ++ ";\n                                // 3. compare new and old locals to see if selectors changed\n                                if (JSON.stringify(newLocals) === JSON.stringify(oldLocals)) return;\n                                // 4. locals changed. Update and force re-render.\n                                cssModules['"
  ++ moduleName
  ++ "'] = newLocals;\n                                require('vue-hot-reload-api').rerender('"
  ++ moduleId ++ "');\n                            \x7d);\n                            "

/-- Line 189. -/
def injectStyleClose : String := "\x7d"

/-- Line 202. -/
def componentOpen (componentRequirePath : String) : String :=
  "var Component = require(" ++ componentRequirePath ++ ")("

/-- Line 242. -/
def fileFragment (jsFilePath : String) : String :=
  "Component.options.__file = " ++ jsonString jsFilePath ++ ";"

/-- Lines 244-248. -/
def namedExportsCheck : String :=
  "if (Component.esModule && Object.keys(Component.esModule).some(function (key) \x7b\n            return key !== \"default\" && key !== \"__esModule\"\n        \x7d)) \x7b\n            console.error(\"named exports are not supported in *.vue files.\");\n        \x7d"

/-- Lines 251-253. -/
def functionalCheck (vueName : String) : String :=
  "if (Component.options.functional) \x7b\n                console.error(\"[vue-multifile-loader] "
  ++ vueName
  ++ ": functional components are not supported with templates, they should use render functions.\");\n            \x7d"

/-- Lines 262-272: head of the hot-reload block, up to the `else` of the record test. -/
def hotHead (moduleId : String) : String :=
  "\n                /* hot reload */\n                if (module.hot) \x7b\n                    (function () \x7b\n                        var hotAPI = require('vue-hot-reload-api');\n                        hotAPI.install(require('vue'), false);\n                        if (!hotAPI.compatible) return;\n                        module.hot.accept();\n                        if (!module.hot.data) \x7b\n                            hotAPI.createRecord('"
  ++ moduleId ++ "', Component.options);\n                        \x7d else \x7b"

/-- Lines 276-278. -/
def ctorInvalidation : String :=
  "if (module.hot.data.cssModules && Object.keys(module.hot.data.cssModules) !== Object.keys(cssModules)) \x7b\n                    delete Component.options._Ctor;\n                \x7d"

/-- Lines 280-282. -/
def hotReload (moduleId : String) : String :=
  "\n                hotAPI.reload('" ++ moduleId ++ "', Component.options);\n            \x7d"

/-- Line 284; `hasCssModules` is the truthiness of `cssModules`. -/
def hotDispose (hasCssModules : Bool) : String :=
  "module.hot.dispose(function (data) \x7b" ++ (if hasCssModules then "data.cssModules = cssModules;" else "")
  ++ "disposed = true; \x7d);"

/-- Line 285. -/
def hotClose : String := "\x7d)()\x7d"

/-- Lines 290-293. -/
def esModuleExport : String :=
  "\n                exports.__esModule = true;\n                exports['default'] = Component.exports;\n            "

/-- Line 295. -/
def plainExport : String := "module.exports = Component.exports;"

/-- Lines 298-302: the text returned in dependency-injection mode. -/
def injectFactory (body : String) : String :=
  "/* dependency injection */\n            module.exports = function (injections) \x7b\n                "
  ++ body ++ "\n                return Component.exports;\n            \x7d;"

/-! ## Style injection (lines 99-191) -/

/-- The variables that `handleStyle` reads and writes: the array `outputs`, the array
`styleInjectionCodes`, the registry `cssModules` (`none` while it is `undefined`, else the
own keys of the object) and the messages passed to `this.emitError`. -/
structure EmitState where
  outputs : List String
  styleInjectionCodes : List String
  cssModules : Option (List String)
  errors : List String
deriving DecidableEq, Repr

/-- Lines 115-184: the closure `handleStyle`.  `moduleName` is `none` for `false`. -/
def handleStyle (h : Host) (isServer needsHotReload : Bool) (cssLoader moduleId : String)
    (filePath : String) (moduleName : Option String) (st : EmitState) : EmitState :=
  let requireString := getRequire h cssLoader filePath
  let hasStyleLoader := true
  let hasVueStyleLoader := true
  if jsTruthy moduleName then
    let name := moduleName.getD ""
    let st : EmitState :=
      match st.cssModules with
      | none => { st with cssModules := some [], outputs := st.outputs ++ [cssModulesDecl] }
      | some _ => st
    let registry := st.cssModules.getD []
    if jsIn name registry then
      { st with
        errors := st.errors ++ [duplicateNameError name]
        styleInjectionCodes :=
          st.styleInjectionCodes ++ [invokeStyle isServer hasVueStyleLoader requireString] }
    else
      let st : EmitState := { st with cssModules := some (registry ++ [name]) }
      let requireString := if !hasStyleLoader then requireString ++ ".locals" else requireString
      let st : EmitState :=
        { st with styleInjectionCodes := st.styleInjectionCodes ++ [bindFragment name requireString] }
      if !needsHotReload then
        { st with
          styleInjectionCodes :=
            st.styleInjectionCodes ++ [invokeStyle isServer hasVueStyleLoader (assignCode name)] }
      else
        let st : EmitState :=
          { st with
            styleInjectionCodes :=
              st.styleInjectionCodes ++ [invokeStyle isServer hasVueStyleLoader (registryCode name)] }
        let st : EmitState :=
          { st with styleInjectionCodes := st.styleInjectionCodes ++ [accessorFragment name] }
        let requirePath := getRequirePath h cssLoader filePath
        { st with
          outputs := st.outputs ++ [acceptFragment requirePath name requireString moduleId] }
  else
    { st with
      styleInjectionCodes :=
        st.styleInjectionCodes ++ [invokeStyle isServer hasVueStyleLoader requireString] }

def needsHotReload (h : Host) : Bool :=
  !isServer h && !isProduction h

def cssModuleFilePath (h : Host) : String :=
  h.join (vuePath h) "module.css"

def cssIndexFilePath (h : Host) : String :=
  h.join (vuePath h) "index.css"

def cssModuleExists (h : Host) : Bool :=
  h.existsSync (cssModuleFilePath h)

def cssIndexExists (h : Host) : Bool :=
  h.existsSync (cssIndexFilePath h)

def htmlFilePath (h : Host) : String :=
  h.join (vuePath h) "index.html"

def htmlExists (h : Host) : Bool :=
  h.existsSync (htmlFilePath h)

/-- Lines 92-191: the state after the disposal flag and the style block. -/
def styleBlock (h : Host) (moduleId : String) (loaders : Loaders) : EmitState :=
  let st : EmitState := { outputs := [], styleInjectionCodes := [], cssModules := none, errors := [] }
  let st : EmitState :=
    if needsHotReload h then { st with outputs := st.outputs ++ [disposedFlag] } else st
  if cssModuleExists h || cssIndexExists h then
    let st : EmitState := { st with styleInjectionCodes := [injectStyleHead] }
    let st : EmitState :=
      if needsHotReload h then
        { st with styleInjectionCodes := st.styleInjectionCodes ++ [disposedGuard] }
      else st
    let st : EmitState :=
      if isServer h then
        { st with styleInjectionCodes := st.styleInjectionCodes ++ [scratchDecl] }
      else st
    let st : EmitState :=
      if cssModuleExists h then
        handleStyle h (isServer h) (needsHotReload h) loaders.css moduleId
          (cssModuleFilePath h) (some "$style") st
      else st
    let st : EmitState :=
      if cssIndexExists h then
        handleStyle h (isServer h) (needsHotReload h) loaders.css moduleId
          (cssIndexFilePath h) none st
      else st
    let st : EmitState :=
      { st with styleInjectionCodes := st.styleInjectionCodes ++ [injectStyleClose] }
    { st with outputs := st.outputs ++ st.styleInjectionCodes }
  else st

/-! ## The normalizer call, development code, hot reload and export (lines 193-307) -/

/-- Lines 201-237: the fragments pushed for the call of the component normalizer. -/
def normalizerCall (h : Host) (o : Options) (loaders : Loaders) : List String :=
  let componentRequirePath := h.stringifyRequest ("!" ++ h.componentNormalizerPath)
  let outputs : List String := [componentOpen componentRequirePath]
  let outputs := outputs ++ ["/* script */"]
  let jsFilePath := h.resourcePath
  let scriptRequireString := getRequire h loaders.js jsFilePath
  let scriptRequireString :=
    if o.inject then scriptRequireString ++ "(injections)" else scriptRequireString
  let outputs := outputs ++ [scriptRequireString ++ ","]
  let outputs := outputs ++ ["/* template */"]
  let outputs :=
    if htmlExists h then outputs ++ [getRequire h loaders.html (htmlFilePath h) ++ ","]
    else outputs ++ ["null,"]
  let outputs := outputs ++ ["/* styles */"]
  let outputs :=
    outputs ++ [(if cssModuleExists h || cssIndexExists h then "injectStyle" else "null") ++ ","]
  let outputs := outputs ++ ["/* scopeId */"]
  let outputs := outputs ++ ["null,"]
  let outputs := outputs ++ ["/* moduleIdentifier (server only) */"]
  let outputs := outputs ++ [if isServer h then jsonString (h.hash h.request) else "null"]
  outputs ++ [")"]

/-- Lines 240-255: development-only code. -/
def developmentCode (h : Host) : List String :=
  if !isProduction h then
    let outputs : List String := [fileFragment h.resourcePath]
    let outputs := outputs ++ [namedExportsCheck]
    if htmlExists h then outputs ++ [functionalCheck (vueName h)] else outputs
  else []

/-- Lines 261-286: the hot-reload block; `cssModules` is the registry after the style block. -/
def hotReloadCode (h : Host) (moduleId : String) (cssModules : Option (List String)) :
    List String :=
  if needsHotReload h then
    let outputs : List String := [hotHead moduleId]
    let outputs := if cssModules.isSome then outputs ++ [ctorInvalidation] else outputs
    let outputs := outputs ++ [hotReload moduleId]
    let outputs := outputs ++ [hotDispose cssModules.isSome]
    outputs ++ [hotClose]
  else []

/-- What one run of the loader produces: the returned text, the array `outputs` at the
return, the injector body, the registry and the messages given to `this.emitError`. -/
structure Emission where
  text : String
  outputs : List String
  styleInjectionCodes : List String
  cssModules : Option (List String)
  errors : List String
  moduleId : String
deriving DecidableEq, Repr

/-- The exported loader function (lines 16-307); a thrown error is `Except.error`. -/
def loader (h : Host) (o : Options) : Except String Emission :=
  let moduleId := moduleId h o
  match loaders h o with
  | Except.error e => Except.error e
  | Except.ok loaders =>
    let st := styleBlock h moduleId loaders
    let outputs := st.outputs
    let outputs := outputs ++ normalizerCall h o loaders
    let outputs := outputs ++ developmentCode h
    if !o.inject then
      let outputs := outputs ++ hotReloadCode h moduleId st.cssModules
      let outputs := if o.esModule then outputs ++ [esModuleExport] else outputs ++ [plainExport]
      Except.ok
        { text := String.intercalate "\n" outputs
          outputs := outputs
          styleInjectionCodes := st.styleInjectionCodes
          cssModules := st.cssModules
          errors := st.errors
          moduleId := moduleId }
    else
      Except.ok
        { text := injectFactory (String.intercalate "\n" outputs)
          outputs := outputs
          styleInjectionCodes := st.styleInjectionCodes
          cssModules := st.cssModules
          errors := st.errors
          moduleId := moduleId }

/-! ## Run-time meaning of the emitted CSS-module binding (lines 146-149) -/

/-- A plain object with string values: its own properties in insertion order. -/
abbrev Obj := List (String × String)

/-- Property read `obj[key]`; `none` is `undefined`. -/
def Obj.get (obj : Obj) (key : String) : Option String :=
  match obj with
  | [] => none
  | (k, v) :: rest => if k = key then some v else Obj.get rest key

/-- Property write `obj[key] = value`: replaces in place or appends a new key. -/
def Obj.set (obj : Obj) (key value : String) : Obj :=
  match obj with
  | [] => [(key, value)]
  | (k, v) :: rest => if k = key then (k, value) :: rest else (k, v) :: Obj.set rest key value

/-- The call `Object.assign(target, source)`: every own property of `source` is written. -/
def Obj.assign (target source : Obj) : Obj :=
  source.foldl (fun t kv => Obj.set t kv.1 kv.2) target

/-- The own keys of an object. -/
def Obj.keys (obj : Obj) : List String :=
  obj.map Prod.fst

/-- What the emitted lines 146-149 leave in `cssModules[moduleName]`: `current` is the
value of the require, `superModules` is `this[moduleName]` (`none` when it is undefined)
and `optionsName` is `this.$options.name`. -/
def boundCssModule (superModules : Option Obj) (optionsName : Option String) (current : Obj) :
    Obj :=
  match superModules with
  | some inherited =>
    if optionsName = Obj.get inherited "root" then
      Obj.assign (Obj.assign [] inherited) current
    else current
  | none => current

/-! ## Reading the emitted program -/

/-- Whether resolution fails for want of an extractor: `options.extractCSS` is truthy,
carries no `extract` function, and extract-text-webpack-plugin cannot be required. -/
def extractorMissing (h : Host) (o : Options) : Bool :=
  match o.extractCSS, h.extractTextPlugin with
  | ExtractCSS.truthy, none => true
  | _, _ => false

/-- The fragment that follows the first occurrence of `marker`. -/
def fragmentAfter (marker : String) : List String → Option String
  | [] => none
  | a :: rest =>
    if a = marker then rest.head? else fragmentAfter marker rest

/-- The comment fragments pushed between the arguments of the normalizer call. -/
def argumentComments : List String :=
  ["/* script */", "/* template */", "/* styles */", "/* scopeId */",
   "/* moduleIdentifier (server only) */"]

/-- The argument fragments of the normalizer call: what is pushed from the first
`/* script */` comment up to the closing parenthesis, the comments left out. -/
def normalizerArguments (outputs : List String) : List String :=
  ((outputs.dropWhile fun f => f != "/* script */").takeWhile fun f => f != ")").filter
    fun f => !decide (f ∈ argumentComments)

/-- Whether the character list starts with the given characters. -/
def startsWith : List Char → List Char → Bool
  | [], _ => true
  | p :: ps, l =>
    match l with
    | [] => false
    | c :: cs => p == c && startsWith ps cs

/-- Leading characters that tell the emitted fragments apart, most specific first. -/
def fragmentLeads : List String :=
  ["var d", "var c", "var i", "var C", "function", "    if", "  ", ";(i=",
   "\n                         ", "\n                        ",
   "\n                /", "\n                h", "\n                e",
   "Object.defineProperty", "\x7d)", "\x7d",
   "/* script */", "/* template */", "/* styles */", "/* scopeId */", "/* moduleIdentifier",
   "require(", "null,", "null", "injectStyle,", ")", "\"",
   "Component.options.__file", "if (Component.esModule", "if (Component.options.functional",
   "if (module.hot.data", "module.hot.dispose", "module.exports = Component"]

/-- Index in `fragmentLeads` of the first entry the fragment starts with. -/
def kind (s : String) : Nat :=
  fragmentLeads.findIdx fun p => startsWith p.data s.data

/-- The kinds of the fragments of `outputs`, in order, as a function of the flags. -/
def outputKinds (srv prod mod idx html inj es : Bool) : List Nat :=
  (if !srv && !prod then [0] else []) ++ (if mod then [1] else [])
    ++ (if mod && (!srv && !prod) then [8] else [])
    ++ (if mod || idx then
          [4] ++ (if !srv && !prod then [5] else []) ++ (if srv then [2] else [])
            ++ (if mod then
                  [9, if srv then 7 else 6] ++ (if !srv && !prod then [13] else [])
                else [])
            ++ (if idx then [if srv then 7 else 6] else []) ++ [15]
        else [])
    ++ [3, 16, 21, 17, if html then 21 else 22, 18, if mod || idx then 24 else 22, 19, 22, 20,
        if srv then 26 else 23, 25]
    ++ (if prod then [] else [27, 28] ++ if html then [29] else [])
    ++ (if inj then []
        else
          (if !srv && !prod then [10] ++ (if mod then [30] else []) ++ [11, 31, 14] else [])
            ++ [if es then 12 else 32])

/-- The kinds of the fragments of the injector body `styleInjectionCodes`, in order. -/
def injectorKinds (srv prod mod idx : Bool) : List Nat :=
  if mod || idx then
    [4] ++ (if !srv && !prod then [5] else []) ++ (if srv then [2] else [])
      ++ (if mod then
            [9, if srv then 7 else 6] ++ (if !srv && !prod then [13] else [])
          else [])
      ++ (if idx then [if srv then 7 else 6] else []) ++ [15]
  else []

/-- Leading characters of the three codes that are passed to `invokeStyle`, in its client
form and in its server form. -/
def codeLeads : List String :=
  ["  this[", "  cssModules[", "  require(", ";(i=this[", ";(i=cssModules[", ";(i=require("]

/-- Index in `codeLeads` of the first entry the fragment starts with. -/
def codeKind (s : String) : Nat :=
  codeLeads.findIdx fun p => startsWith p.data s.data

/-- Every occurrence of the fragment `use` in `outputs` comes after an occurrence of the
fragment `decl`. -/
def declaredBefore (decl use : String) (outputs : List String) : Prop :=
  ∀ j : Nat, outputs[j]? = some use → ∃ i : Nat, i < j ∧ outputs[i]? = some decl

/-- On a list of kinds: whether every occurrence of `use` comes after an occurrence of
`decl`; `seen` tells whether `decl` has occurred already. -/
def declaredFirst (decl use : Nat) : Bool → List Nat → Bool
  | _, [] => true
  | seen, k :: ks => (k != use || seen) && declaredFirst decl use (seen || k == decl) ks

/-! ## Run-time meaning of the emitted constructor invalidation (lines 276-278) -/

/-- The registry `cssModules` at run time: module name to compiled locals. -/
abbrev Registry := List (String × Obj)

/-- A JavaScript array: the identity of the array object and its elements. -/
structure JsArray where
  ref : Nat
  items : List String
deriving DecidableEq, Repr

/-- The call `Object.keys(obj)` when `next` is the next unused object identity: it
returns a newly created array, and the next unused identity. -/
def objectKeys (next : Nat) (obj : Registry) : JsArray × Nat :=
  ({ ref := next, items := obj.map Prod.fst }, next + 1)

/-- The expression `a !== b` on two arrays: objects are compared by identity. -/
def strictNotEqual (a b : JsArray) : Bool :=
  a.ref != b.ref

/-- Whether the emitted lines 276-278 delete `Component.options._Ctor` on a reload:
`carried` is `module.hot.data.cssModules` (`none` when it is undefined), `cssModules`
the registry of the new module, `next` the next unused object identity. -/
def ctorDeleted (next : Nat) (carried : Option Registry) (cssModules : Registry) : Bool :=
  match carried with
  | none => false
  | some old =>
    let oldKeys := objectKeys next old
    let newKeys := objectKeys oldKeys.2 cssModules
    strictNotEqual oldKeys.1 newKeys.1

/-- The emitted test as it runs on a reload.  Lines 276-278 are evaluated with the module,
after `var cssModules = {};` and before any component instance has called
`injectStyle`, so the registry of the new module is still empty. -/
def reloadDeletesCtor (next : Nat) (carried : Option Registry) : Bool :=
  ctorDeleted next carried []

/-! ## Two invocations: what the loader writes to its context (lines 17 and 21) -/

/-- The loader context `this` as successive invocations see it.  `vue` is
`this.options.vue` and `query` is `loaderUtils.getOptions(this)`, each given by the
assignment of its own keys onto a target object; the last two fields are what the loader
writes. -/
structure LoaderContext where
  host : Host
  vue : Options → Options
  query : Options → Options
  /-- `this.options.__vueOptions__`, `none` while it is undefined -/
  vueOptions : Option Options
  /-- whether `this.cacheable()` has been called -/
  cacheable : Bool

/-- Line 21: `Object.assign({}, this.options.vue, loaderUtils.getOptions(this))`. -/
def mergedOptions (ctx : LoaderContext) : Options :=
  ctx.query (ctx.vue {})

/-- One invocation on a context: `this.cacheable()` (line 17), the merge of the options
and its assignment to `this.options.__vueOptions__` (line 21), then the rest of the
function.  It returns the result and the context it leaves; a throw comes after both
writes. -/
def invoke (ctx : LoaderContext) : Except String Emission × LoaderContext :=
  let ctx : LoaderContext := { ctx with cacheable := true }
  let options := mergedOptions ctx
  let ctx : LoaderContext := { ctx with vueOptions := some options }
  (loader ctx.host options, ctx)

/-! ## Sample requests -/

/-- A development build for the browser of the component `/app/src/button.vue`, in
which only the script file exists. -/
def devHost : Host where
  target := "web"
  minimize := false
  nodeEnv := none
  sourceMap := true
  resourcePath := "/app/src/button.vue/index.js"
  request := "/app/loader.js!/app/src/button.vue/index.js"
  compilerContext := some "/app"
  optionsContext := none
  cwd := "/app"
  hasBabel := true
  hasBuble := false
  extractTextPlugin := none
  styleCompilerPath := "/app/node_modules/vue-loader/lib/style-compiler/index.js"
  templateCompilerPath := "/app/node_modules/vue-loader/lib/template-compiler/index.js"
  componentNormalizerPath := "/app/node_modules/vue-loader/lib/component-normalizer.js"
  dirname := fun p =>
    if p = "/app/src/button.vue/index.js" then "/app/src/button.vue" else "/app/src"
  basename := fun _ _ => "button"
  join := fun a b => a ++ "/" ++ b
  existsSync := fun _ => false
  genId := fun _ _ _ => "7ba5bd90"
  hash := fun _ => "6a0f1c3e"
  stringifyRequest := jsonString

/-- The same component with `module.css`, `index.css` and `index.html` present. -/
def styledHost : Host :=
  { devHost with existsSync := fun _ => true }

/-- The styled component built for the server (`target: 'node'`). -/
def serverHost : Host :=
  { styledHost with target := "node" }

/-- The styled component built for production in the browser. -/
def productionHost : Host :=
  { styledHost with minimize := true }

/-- A first invocation for the styled component: the webpack configuration asks for the
ES-module export, the loader query gives a hash key, and nothing has been written yet. -/
def sampleContext : LoaderContext where
  host := styledHost
  vue := fun o => { o with esModule := true }
  query := fun o => { o with hashKey := some "salt" }
  vueOptions := none
  cacheable := false

/-- The request of `styledHost` seen by a second invocation: another working directory,
other files elsewhere on the disk, and helpers that differ on arguments the loader does
not pass. -/
def secondHost : Host :=
  { styledHost with
    cwd := "/srv/build"
    optionsContext := some "/tmp"
    existsSync := fun p => p != "/app/src/other.vue/index.css"
    genId := fun file _ _ => if file = "/app/src/button.vue" then "7ba5bd90" else "00000000"
    hash := fun r =>
      if r = "/app/loader.js!/app/src/button.vue/index.js" then "6a0f1c3e" else "ffffffff" }

/-! ## The kind of every emitted fragment -/

theorem kind_disposedFlag : kind disposedFlag = 0 := rfl
theorem kind_cssModulesDecl : kind cssModulesDecl = 1 := rfl
theorem kind_scratchDecl : kind scratchDecl = 2 := rfl
theorem kind_componentOpen (p : String) : kind (componentOpen p) = 3 := rfl
theorem kind_injectStyleHead : kind injectStyleHead = 4 := rfl
theorem kind_disposedGuard : kind disposedGuard = 5 := rfl
theorem kind_invokeStyle_require (h : Host) (l p : String) :
    kind (invokeStyle false true (getRequire h l p)) = 6 := rfl
theorem kind_invokeStyle_registry (n : String) :
    kind (invokeStyle false true (registryCode n)) = 6 := rfl
theorem kind_invokeStyle_assign (n : String) :
    kind (invokeStyle false true (assignCode n)) = 6 := rfl
theorem kind_invokeStyle_server (code : String) : kind (invokeStyle true true code) = 7 := rfl
theorem kind_acceptFragment (p n q m : String) : kind (acceptFragment p n q m) = 8 := rfl
theorem kind_bindFragment (n q : String) : kind (bindFragment n q) = 9 := rfl
theorem kind_hotHead (m : String) : kind (hotHead m) = 10 := rfl
theorem kind_hotReload (m : String) : kind (hotReload m) = 11 := rfl
theorem kind_esModuleExport : kind esModuleExport = 12 := rfl
theorem kind_accessorFragment (n : String) : kind (accessorFragment n) = 13 := rfl
theorem kind_hotClose : kind hotClose = 14 := rfl
theorem kind_injectStyleClose : kind injectStyleClose = 15 := rfl
theorem kind_scriptComment : kind "/* script */" = 16 := rfl
theorem kind_templateComment : kind "/* template */" = 17 := rfl
theorem kind_stylesComment : kind "/* styles */" = 18 := rfl
theorem kind_scopeIdComment : kind "/* scopeId */" = 19 := rfl
theorem kind_identifierComment : kind "/* moduleIdentifier (server only) */" = 20 := rfl
theorem kind_getRequire (h : Host) (l p s : String) : kind (getRequire h l p ++ s) = 21 := rfl
theorem kind_getRequire_inject (h : Host) (l p s t : String) :
    kind (getRequire h l p ++ s ++ t) = 21 := rfl
theorem kind_nullComma : kind "null," = 22 := rfl
theorem kind_null : kind "null" = 23 := rfl
theorem kind_injectStyleComma : kind "injectStyle," = 24 := rfl
theorem kind_closeParen : kind ")" = 25 := rfl
theorem kind_jsonString (s : String) : kind (jsonString s) = 26 := rfl
theorem kind_fileFragment (p : String) : kind (fileFragment p) = 27 := rfl
theorem kind_namedExportsCheck : kind namedExportsCheck = 28 := rfl
theorem kind_functionalCheck (n : String) : kind (functionalCheck n) = 29 := rfl
theorem kind_ctorInvalidation : kind ctorInvalidation = 30 := rfl
theorem kind_hotDispose (b : Bool) : kind (hotDispose b) = 31 := rfl
theorem kind_plainExport : kind plainExport = 32 := rfl

/-! ## The shape of the emitted program -/

theorem ne_of_kind_ne {a b : String} (hk : kind a ≠ kind b) : a ≠ b :=
  fun hab => hk (congrArg kind hab)

theorem not_mem_of_kind {t : String} {l : List String} {ks : List Nat}
    (hl : l.map kind = ks) (hk : kind t ∉ ks) : t ∉ l := by
  intro hm
  exact hk (hl ▸ List.mem_map_of_mem kind hm)

theorem styleBlock_codes (h : Host) (mid : String) (ls : Loaders) :
    (styleBlock h mid ls).styleInjectionCodes =
      if cssModuleExists h || cssIndexExists h then
        [injectStyleHead] ++ (if needsHotReload h then [disposedGuard] else [])
          ++ (if isServer h then [scratchDecl] else [])
          ++ (if cssModuleExists h then
                [bindFragment "$style" (getRequire h ls.css (cssModuleFilePath h)),
                 invokeStyle (isServer h) true
                   (if needsHotReload h then registryCode "$style" else assignCode "$style")]
                ++ (if needsHotReload h then [accessorFragment "$style"] else [])
              else [])
          ++ (if cssIndexExists h then
                [invokeStyle (isServer h) true (getRequire h ls.css (cssIndexFilePath h))]
              else [])
          ++ [injectStyleClose]
      else [] := by
  unfold needsHotReload
  cases hS : isServer h <;> cases hP : isProduction h <;> cases hM : cssModuleExists h <;>
    cases hI : cssIndexExists h <;>
    simp [styleBlock, handleStyle, needsHotReload, hS, hP, hM, hI, jsTruthy, jsIn,
      objectPrototypeKeys]

theorem styleBlock_outputs (h : Host) (mid : String) (ls : Loaders) :
    (styleBlock h mid ls).outputs =
      (if needsHotReload h then [disposedFlag] else [])
        ++ (if cssModuleExists h then [cssModulesDecl] else [])
        ++ (if cssModuleExists h && needsHotReload h then
              [acceptFragment (getRequirePath h ls.css (cssModuleFilePath h)) "$style"
                (getRequire h ls.css (cssModuleFilePath h)) mid]
            else [])
        ++ (styleBlock h mid ls).styleInjectionCodes := by
  rw [styleBlock_codes]
  unfold needsHotReload
  cases hS : isServer h <;> cases hP : isProduction h <;> cases hM : cssModuleExists h <;>
    cases hI : cssIndexExists h <;>
    simp [styleBlock, handleStyle, needsHotReload, hS, hP, hM, hI, jsTruthy, jsIn,
      objectPrototypeKeys]

theorem styleBlock_cssModules (h : Host) (mid : String) (ls : Loaders) :
    (styleBlock h mid ls).cssModules = if cssModuleExists h then some ["$style"] else none := by
  cases hS : isServer h <;> cases hP : isProduction h <;> cases hM : cssModuleExists h <;>
    cases hI : cssIndexExists h <;>
    simp [styleBlock, handleStyle, needsHotReload, hS, hP, hM, hI, jsTruthy, jsIn,
      objectPrototypeKeys]

theorem styleBlock_errors (h : Host) (mid : String) (ls : Loaders) :
    (styleBlock h mid ls).errors = [] := by
  cases hS : isServer h <;> cases hP : isProduction h <;> cases hM : cssModuleExists h <;>
    cases hI : cssIndexExists h <;>
    simp [styleBlock, handleStyle, needsHotReload, hS, hP, hM, hI, jsTruthy, jsIn,
      objectPrototypeKeys]

theorem normalizerCall_eq (h : Host) (o : Options) (ls : Loaders) :
    normalizerCall h o ls =
      [componentOpen (h.stringifyRequest ("!" ++ h.componentNormalizerPath)),
       "/* script */",
       (if o.inject then getRequire h ls.js h.resourcePath ++ "(injections)"
        else getRequire h ls.js h.resourcePath) ++ ",",
       "/* template */",
       if htmlExists h then getRequire h ls.html (htmlFilePath h) ++ "," else "null,",
       "/* styles */",
       (if cssModuleExists h || cssIndexExists h then "injectStyle" else "null") ++ ",",
       "/* scopeId */",
       "null,",
       "/* moduleIdentifier (server only) */",
       if isServer h then jsonString (h.hash h.request) else "null",
       ")"] := by
  cases hH : htmlExists h <;> simp [normalizerCall, hH]

theorem kinds_styleBlock (h : Host) (mid : String) (ls : Loaders) :
    (styleBlock h mid ls).outputs.map kind =
      (if !isServer h && !isProduction h then [0] else [])
        ++ (if cssModuleExists h then [1] else [])
        ++ (if cssModuleExists h && (!isServer h && !isProduction h) then [8] else [])
        ++ (if cssModuleExists h || cssIndexExists h then
              [4] ++ (if !isServer h && !isProduction h then [5] else [])
                ++ (if isServer h then [2] else [])
                ++ (if cssModuleExists h then
                      [9, if isServer h then 7 else 6]
                        ++ (if !isServer h && !isProduction h then [13] else [])
                    else [])
                ++ (if cssIndexExists h then [if isServer h then 7 else 6] else []) ++ [15]
            else []) := by
  rw [styleBlock_outputs, styleBlock_codes]
  unfold needsHotReload
  cases hS : isServer h <;> cases hP : isProduction h <;> cases hM : cssModuleExists h <;>
    cases hI : cssIndexExists h <;>
    simp [kind_disposedFlag, kind_cssModulesDecl, kind_scratchDecl, kind_injectStyleHead,
      kind_disposedGuard, kind_invokeStyle_require, kind_invokeStyle_registry,
      kind_invokeStyle_assign, kind_invokeStyle_server, kind_acceptFragment, kind_bindFragment,
      kind_accessorFragment, kind_injectStyleClose]

theorem kinds_normalizerCall (h : Host) (o : Options) (ls : Loaders) :
    (normalizerCall h o ls).map kind =
      [3, 16, 21, 17, if htmlExists h then 21 else 22, 18,
       if cssModuleExists h || cssIndexExists h then 24 else 22, 19, 22, 20,
       if isServer h then 26 else 23, 25] := by
  rw [normalizerCall_eq]
  cases hS : isServer h <;> cases hH : htmlExists h <;> cases hJ : o.inject <;>
    cases hC : (cssModuleExists h || cssIndexExists h) <;>
    simp [kind_componentOpen, kind_scriptComment, kind_templateComment, kind_stylesComment,
      kind_scopeIdComment, kind_identifierComment, kind_getRequire, kind_getRequire_inject,
      kind_nullComma, kind_null, kind_injectStyleComma, kind_closeParen, kind_jsonString]

theorem kinds_developmentCode (h : Host) :
    (developmentCode h).map kind =
      if isProduction h then [] else [27, 28] ++ if htmlExists h then [29] else [] := by
  cases hP : isProduction h <;> cases hH : htmlExists h <;>
    simp [developmentCode, hP, hH, kind_fileFragment, kind_namedExportsCheck,
      kind_functionalCheck]

theorem hotReloadCode_eq (h : Host) (mid : String) (reg : Option (List String)) :
    hotReloadCode h mid reg =
      if needsHotReload h then
        [hotHead mid] ++ (if reg.isSome then [ctorInvalidation] else [])
          ++ [hotReload mid, hotDispose reg.isSome, hotClose]
      else [] := by
  cases hN : needsHotReload h <;> cases hR : reg.isSome <;> simp [hotReloadCode, hN, hR]

theorem kinds_hotReloadCode (h : Host) (mid : String) (reg : Option (List String)) :
    (hotReloadCode h mid reg).map kind =
      if !isServer h && !isProduction h then
        [10] ++ (if reg.isSome then [30] else []) ++ [11, 31, 14]
      else [] := by
  rw [hotReloadCode_eq]
  unfold needsHotReload
  cases hS : isServer h <;> cases hP : isProduction h <;> cases hR : reg.isSome <;>
    simp [kind_hotHead, kind_ctorInvalidation, kind_hotReload, kind_hotDispose, kind_hotClose]

theorem loaders_ok (h : Host) (o : Options) (hx : extractorMissing h o = false) :
    ∃ ls, loaders h o = Except.ok ls := by
  unfold extractorMissing at hx
  unfold loaders defaultLoaders getCSSExtractLoader
  cases hE : o.extractCSS <;> cases hT : h.extractTextPlugin <;> simp_all

theorem loader_of_loaders (h : Host) (o : Options) (ls : Loaders)
    (hl : loaders h o = Except.ok ls) :
    ∃ r, loader h o = Except.ok r
      ∧ r.outputs =
          (styleBlock h (moduleId h o) ls).outputs ++ normalizerCall h o ls
            ++ developmentCode h
            ++ (if o.inject then []
                else
                  hotReloadCode h (moduleId h o) (styleBlock h (moduleId h o) ls).cssModules
                    ++ [if o.esModule then esModuleExport else plainExport])
      ∧ r.text =
          (if o.inject then injectFactory (String.intercalate "\n" r.outputs)
           else String.intercalate "\n" r.outputs)
      ∧ r.styleInjectionCodes = (styleBlock h (moduleId h o) ls).styleInjectionCodes
      ∧ r.cssModules = (styleBlock h (moduleId h o) ls).cssModules
      ∧ r.errors = []
      ∧ r.moduleId = moduleId h o := by
  unfold loader
  rw [hl]
  cases hJ : o.inject <;> cases hE : o.esModule <;> simp [styleBlock_errors]

theorem kinds_outputs (h : Host) (o : Options) (r : Emission)
    (hr : loader h o = Except.ok r) :
    r.outputs.map kind =
      outputKinds (isServer h) (isProduction h) (cssModuleExists h) (cssIndexExists h)
        (htmlExists h) o.inject o.esModule := by
  cases hl : loaders h o with
  | error e => simp [loader, hl] at hr
  | ok ls =>
    obtain ⟨r', hr', ho, -⟩ := loader_of_loaders h o ls hl
    rw [hr] at hr'
    cases hr'
    rw [ho]
    simp only [List.map_append, kinds_styleBlock, kinds_normalizerCall, kinds_developmentCode,
      styleBlock_cssModules]
    unfold outputKinds
    cases hJ : o.inject <;> cases hE : o.esModule <;> cases hM : cssModuleExists h <;>
      simp [kinds_hotReloadCode, kind_esModuleExport, kind_plainExport]

theorem fragmentAfter_append {m : String} (pre rest : List String) (hp : m ∉ pre) :
    fragmentAfter m (pre ++ rest) = fragmentAfter m rest := by
  induction pre with
  | nil => rfl
  | cons a t ih =>
    have ha : a ≠ m := fun e => hp (e ▸ List.mem_cons_self _ _)
    have ht : m ∉ t := fun e => hp (List.mem_cons_of_mem _ e)
    simp [fragmentAfter, ha, ih ht]

theorem dropWhile_ne_append {m : String} (pre rest : List String) (hp : m ∉ pre) :
    (pre ++ m :: rest).dropWhile (fun f => f != m) = m :: rest := by
  induction pre with
  | nil => simp [List.dropWhile]
  | cons a t ih =>
    have ha : a ≠ m := fun e => hp (e ▸ List.mem_cons_self _ _)
    have ht : m ∉ t := fun e => hp (List.mem_cons_of_mem _ e)
    have hb : (a != m) = true := by simpa using ha
    simp [List.dropWhile, hb, ih ht]

theorem flags_not_mem (h : Host) (o : Options) (r : Emission)
    (hr : loader h o = Except.ok r) (t : String) (k : Nat) (ht : kind t = k)
    (hk : k ∉ outputKinds (isServer h) (isProduction h) (cssModuleExists h) (cssIndexExists h)
        (htmlExists h) o.inject o.esModule) : t ∉ r.outputs :=
  not_mem_of_kind (kinds_outputs h o r hr) (ht ▸ hk)

theorem dropWhile_ne_append_cons {m : String} (pre : List String) (a : String)
    (rest : List String) (hp : m ∉ pre) (ha : a ≠ m) :
    (pre ++ a :: m :: rest).dropWhile (fun f => f != m) = m :: rest := by
  have h1 : pre ++ a :: m :: rest = (pre ++ [a]) ++ m :: rest := by simp
  rw [h1]
  apply dropWhile_ne_append
  simp only [List.mem_append, List.mem_singleton, not_or]
  exact ⟨hp, fun e => ha e.symm⟩

theorem argument_ne (a : String) (k : Nat) (ha : kind a = k)
    (hk : k = 21 ∨ k = 22 ∨ k = 23 ∨ k = 24 ∨ k = 26) :
    a ≠ ")" ∧ a ≠ "/* script */" ∧ a ≠ "/* template */" ∧ a ≠ "/* styles */"
      ∧ a ≠ "/* scopeId */" ∧ a ≠ "/* moduleIdentifier (server only) */" := by
  have key : ∀ c : String, kind c ∈ [16, 17, 18, 19, 20, 25] → a ≠ c := by
    intro c hc hac
    subst hac
    rw [ha] at hc
    rcases hk with rfl | rfl | rfl | rfl | rfl <;> simp at hc
  exact ⟨key _ (by rw [kind_closeParen]; decide), key _ (by rw [kind_scriptComment]; decide),
    key _ (by rw [kind_templateComment]; decide), key _ (by rw [kind_stylesComment]; decide),
    key _ (by rw [kind_scopeIdComment]; decide),
    key _ (by rw [kind_identifierComment]; decide)⟩

theorem normalizerArguments_eq (h : Host) (o : Options) (ls : Loaders) (r : Emission)
    (hl : loaders h o = Except.ok ls) (hr : loader h o = Except.ok r) :
    normalizerArguments r.outputs =
      [(if o.inject then getRequire h ls.js h.resourcePath ++ "(injections)"
        else getRequire h ls.js h.resourcePath) ++ ",",
       if htmlExists h then getRequire h ls.html (htmlFilePath h) ++ "," else "null,",
       (if cssModuleExists h || cssIndexExists h then "injectStyle" else "null") ++ ",",
       "null,",
       if isServer h then jsonString (h.hash h.request) else "null"] := by
  obtain ⟨r', hr', ho, -⟩ := loader_of_loaders h o ls hl
  rw [hr] at hr'
  cases hr'
  have hpre : "/* script */" ∉ (styleBlock h (moduleId h o) ls).outputs := by
    refine not_mem_of_kind (kinds_styleBlock h _ ls) ?_
    rw [kind_scriptComment]
    cases isServer h <;> cases isProduction h <;> cases cssModuleExists h <;>
      cases cssIndexExists h <;> decide
  have hopen : componentOpen (h.stringifyRequest ("!" ++ h.componentNormalizerPath))
      ≠ "/* script */" :=
    ne_of_kind_ne (by rw [kind_componentOpen, kind_scriptComment]; decide)
  have e1 := argument_ne (getRequire h ls.js h.resourcePath ++ ",") 21 (kind_getRequire _ _ _ _) (by simp)
  have e2 := argument_ne (getRequire h ls.js h.resourcePath ++ "(injections)" ++ ",") 21
    (kind_getRequire_inject _ _ _ _ _) (by simp)
  have e3 := argument_ne (getRequire h ls.html (htmlFilePath h) ++ ",") 21 (kind_getRequire _ _ _ _) (by simp)
  have e4 := argument_ne (jsonString (h.hash h.request)) 26 (kind_jsonString _) (by simp)
  unfold normalizerArguments
  rw [ho, normalizerCall_eq]
  simp only [List.append_assoc, List.cons_append, List.nil_append]
  rw [dropWhile_ne_append_cons _ _ _ hpre hopen]
  cases hJ : o.inject <;> cases hH : htmlExists h <;> cases hS : isServer h <;>
    cases hC : (cssModuleExists h || cssIndexExists h) <;>
    simp [List.takeWhile, List.filter, argumentComments, e1, e2, e3, e4]

theorem stylesArgument_eq (h : Host) (o : Options) (r : Emission)
    (hr : loader h o = Except.ok r) :
    fragmentAfter "/* styles */" r.outputs =
      some ((if cssModuleExists h || cssIndexExists h then "injectStyle" else "null") ++ ",") := by
  cases hl : loaders h o with
  | error e => simp [loader, hl] at hr
  | ok ls =>
    obtain ⟨r', hr', ho, -⟩ := loader_of_loaders h o ls hl
    rw [hr] at hr'
    cases hr'
    rw [ho, normalizerCall_eq]
    simp only [List.append_assoc]
    rw [fragmentAfter_append _ _ (not_mem_of_kind (kinds_styleBlock h _ ls) ?_)]
    · have h1 := ne_of_kind_ne (a := componentOpen (h.stringifyRequest ("!" ++ h.componentNormalizerPath)))
        (b := "/* styles */") (by rw [kind_componentOpen, kind_stylesComment]; decide)
      have h3 : ∀ s, getRequire h ls.js h.resourcePath ++ s ≠ "/* styles */" := fun s =>
        ne_of_kind_ne (by rw [kind_getRequire, kind_stylesComment]; decide)
      have h4 : ∀ s t, getRequire h ls.js h.resourcePath ++ s ++ t ≠ "/* styles */" := fun s t =>
        ne_of_kind_ne (by rw [kind_getRequire_inject, kind_stylesComment]; decide)
      have h5 : ∀ s, getRequire h ls.html (htmlFilePath h) ++ s ≠ "/* styles */" := fun s =>
        ne_of_kind_ne (by rw [kind_getRequire, kind_stylesComment]; decide)
      cases hJ : o.inject <;> cases hH : htmlExists h <;>
        simp [fragmentAfter, h1, h3, h4, h5]
    · rw [kind_stylesComment]
      cases isServer h <;> cases isProduction h <;> cases cssModuleExists h <;>
        cases cssIndexExists h <;> decide

/-! ## Claims -/

/-- C1: when neither `module.css` nor `index.css` exists, the fragment pushed after the
`/* styles */` comment of the normalizer call is `null,`, and neither the head of
`injectStyle`, nor `var cssModules = {};`, nor any style accept fragment is pushed (the
injector body is empty); when at least one of the two files exists, that fragment is
`injectStyle,` and the function definition is pushed, from its head to its closing brace. -/
theorem styles_argument_follows_style_files (h : Host) (o : Options)
    (hx : extractorMissing h o = false) :
    ∃ r, loader h o = Except.ok r
      ∧ (cssModuleExists h = false → cssIndexExists h = false →
          fragmentAfter "/* styles */" r.outputs = some "null,"
            ∧ injectStyleHead ∉ r.outputs
            ∧ cssModulesDecl ∉ r.outputs
            ∧ (∀ p n q m, acceptFragment p n q m ∉ r.outputs)
            ∧ r.styleInjectionCodes = [])
      ∧ (cssModuleExists h = true ∨ cssIndexExists h = true →
          fragmentAfter "/* styles */" r.outputs = some "injectStyle,"
            ∧ injectStyleHead ∈ r.outputs
            ∧ r.styleInjectionCodes.head? = some injectStyleHead
            ∧ r.styleInjectionCodes.getLast? = some injectStyleClose
            ∧ r.styleInjectionCodes <:+: r.outputs) := by
  obtain ⟨ls, hl⟩ := loaders_ok h o hx
  obtain ⟨r, hr, ho, -, hc, -⟩ := loader_of_loaders h o ls hl
  refine ⟨r, hr, ?_, ?_⟩
  · intro hM hI
    have hk : ∀ k ∈ [4, 1, 8], k ∉ outputKinds (isServer h) (isProduction h) (cssModuleExists h)
        (cssIndexExists h) (htmlExists h) o.inject o.esModule := by
      rw [hM, hI]
      cases isServer h <;> cases isProduction h <;> cases htmlExists h <;> cases o.inject <;>
        cases o.esModule <;> decide
    refine ⟨?_, ?_, ?_, ?_, ?_⟩
    · rw [stylesArgument_eq h o r hr, hM, hI]
      rfl
    · exact flags_not_mem h o r hr _ 4 kind_injectStyleHead (hk 4 (by simp))
    · exact flags_not_mem h o r hr _ 1 kind_cssModulesDecl (hk 1 (by simp))
    · intro p n q m
      exact flags_not_mem h o r hr _ 8 (kind_acceptFragment p n q m) (hk 8 (by simp))
    · rw [hc, styleBlock_codes, hM, hI]
      rfl
  · intro hC
    have hC' : (cssModuleExists h || cssIndexExists h) = true := by
      rcases hC with e | e <;> simp [e]
    have hcodes : r.styleInjectionCodes <:+: r.outputs := by
      rw [ho, styleBlock_outputs, hc]
      simp only [List.append_assoc]
      rw [← List.append_assoc, ← List.append_assoc, ← List.append_assoc]
      exact List.infix_append _ _ _
    have hhead : r.styleInjectionCodes.head? = some injectStyleHead := by
      rw [hc, styleBlock_codes, hC']
      rfl
    have hlast : r.styleInjectionCodes.getLast? = some injectStyleClose := by
      rw [hc, styleBlock_codes, hC']
      simp only [if_true, ← List.append_assoc]
      exact List.getLast?_append_cons _ _ _ |>.trans (by simp)
    refine ⟨?_, ?_, hhead, hlast, hcodes⟩
    · rw [stylesArgument_eq h o r hr, hC']
      rfl
    · apply hcodes.subset
      exact List.mem_of_mem_head? hhead

theorem styles_argument_follows_style_files_witness :
    ∃ r, loader devHost {} = Except.ok r
      ∧ fragmentAfter "/* styles */" r.outputs = some "null,"
      ∧ injectStyleHead ∉ r.outputs := by
  obtain ⟨r, hr, h1, -⟩ := styles_argument_follows_style_files devHost {} (by decide)
  exact ⟨r, hr, (h1 (by decide) (by decide)).1, (h1 (by decide) (by decide)).2.1⟩

/-- C2: in a production build or a build for the server, whatever the other options and
the files present, nothing of the hot reload is pushed: not the disposal flag, not the
guard `if (disposed) return;`, no style accept fragment, no accessor definition, and none
of the fragments of the coordinator block. -/
theorem no_hot_reload_outside_dev_client (h : Host) (o : Options)
    (hx : extractorMissing h o = false)
    (hm : isProduction h = true ∨ isServer h = true) :
    ∃ r, loader h o = Except.ok r
      ∧ disposedFlag ∉ r.outputs
      ∧ disposedGuard ∉ r.outputs
      ∧ (∀ p n q m, acceptFragment p n q m ∉ r.outputs)
      ∧ (∀ n, accessorFragment n ∉ r.outputs)
      ∧ (∀ m, hotHead m ∉ r.outputs)
      ∧ ctorInvalidation ∉ r.outputs
      ∧ (∀ m, hotReload m ∉ r.outputs)
      ∧ (∀ b, hotDispose b ∉ r.outputs)
      ∧ hotClose ∉ r.outputs := by
  obtain ⟨ls, hl⟩ := loaders_ok h o hx
  obtain ⟨r, hr, -⟩ := loader_of_loaders h o ls hl
  have hk : ∀ k ∈ [0, 5, 8, 13, 10, 30, 11, 31, 14],
      k ∉ outputKinds (isServer h) (isProduction h) (cssModuleExists h)
        (cssIndexExists h) (htmlExists h) o.inject o.esModule := by
    have key : ∀ s p m i t j e : Bool, (p = true ∨ s = true) →
        ∀ k ∈ [0, 5, 8, 13, 10, 30, 11, 31, 14], k ∉ outputKinds s p m i t j e := by decide
    exact key _ _ _ _ _ _ _ hm
  refine ⟨r, hr, ?_, ?_, ?_, ?_, ?_, ?_, ?_, ?_, ?_⟩
  · exact flags_not_mem h o r hr _ 0 kind_disposedFlag (hk 0 (by simp))
  · exact flags_not_mem h o r hr _ 5 kind_disposedGuard (hk 5 (by simp))
  · exact fun p n q m => flags_not_mem h o r hr _ 8 (kind_acceptFragment p n q m) (hk 8 (by simp))
  · exact fun n => flags_not_mem h o r hr _ 13 (kind_accessorFragment n) (hk 13 (by simp))
  · exact fun m => flags_not_mem h o r hr _ 10 (kind_hotHead m) (hk 10 (by simp))
  · exact flags_not_mem h o r hr _ 30 kind_ctorInvalidation (hk 30 (by simp))
  · exact fun m => flags_not_mem h o r hr _ 11 (kind_hotReload m) (hk 11 (by simp))
  · exact fun b => flags_not_mem h o r hr _ 31 (kind_hotDispose b) (hk 31 (by simp))
  · exact flags_not_mem h o r hr _ 14 kind_hotClose (hk 14 (by simp))

theorem no_hot_reload_outside_dev_client_witness :
    ∃ r, loader serverHost {} = Except.ok r
      ∧ disposedFlag ∉ r.outputs ∧ (∀ m, hotHead m ∉ r.outputs) := by
  obtain ⟨r, hr, h1, -, -, -, h5, -⟩ :=
    no_hot_reload_outside_dev_client serverHost {} (by decide) (Or.inr (by decide))
  exact ⟨r, hr, h1, h5⟩

/-- C3, as the code has it: in a development build for the browser the disposal flag is
pushed whatever the options; the coordinator block (the head that creates the record on
first load, the invalidation of the cached constructor when there is a registry, the
reload, the dispose handler and the closing) is pushed, in this order, exactly when
`options.inject` is falsy; with `options.inject` truthy none of its fragments is
pushed. -/
theorem hot_reload_in_dev_client (h : Host) (o : Options)
    (hx : extractorMissing h o = false)
    (hP : isProduction h = false) (hS : isServer h = false) :
    ∃ r, loader h o = Except.ok r
      ∧ disposedFlag ∈ r.outputs
      ∧ (o.inject = false →
          [hotHead (moduleId h o)] ++ (if cssModuleExists h then [ctorInvalidation] else [])
            ++ [hotReload (moduleId h o), hotDispose (cssModuleExists h), hotClose]
            <:+: r.outputs)
      ∧ (o.inject = true →
          (∀ m, hotHead m ∉ r.outputs) ∧ ctorInvalidation ∉ r.outputs
            ∧ (∀ m, hotReload m ∉ r.outputs) ∧ (∀ b, hotDispose b ∉ r.outputs)
            ∧ hotClose ∉ r.outputs) := by
  obtain ⟨ls, hl⟩ := loaders_ok h o hx
  obtain ⟨r, hr, ho, -⟩ := loader_of_loaders h o ls hl
  have hN : needsHotReload h = true := by simp [needsHotReload, hP, hS]
  refine ⟨r, hr, ?_, ?_, ?_⟩
  · rw [ho, styleBlock_outputs, hN]
    simp
  · intro hJ
    rw [ho, hJ, hotReloadCode_eq, hN, styleBlock_cssModules]
    have e : (if cssModuleExists h = true then some ["$style"] else none).isSome
        = cssModuleExists h := by
      cases cssModuleExists h <;> rfl
    rw [e]
    simp only [Bool.false_eq_true, if_false, if_true]
    exact ⟨(styleBlock h (moduleId h o) ls).outputs ++ normalizerCall h o ls
      ++ developmentCode h, [if o.esModule = true then esModuleExport else plainExport], by
      simp only [List.append_assoc]⟩
  · intro hJ
    have hk : ∀ k ∈ [10, 30, 11, 31, 14],
        k ∉ outputKinds (isServer h) (isProduction h) (cssModuleExists h)
          (cssIndexExists h) (htmlExists h) o.inject o.esModule := by
      have key : ∀ s p m i t e : Bool,
          ∀ k ∈ [10, 30, 11, 31, 14], k ∉ outputKinds s p m i t true e := by decide
      rw [hJ]
      exact key _ _ _ _ _ _
    refine ⟨?_, ?_, ?_, ?_, ?_⟩
    · exact fun m => flags_not_mem h o r hr _ 10 (kind_hotHead m) (hk 10 (by simp))
    · exact flags_not_mem h o r hr _ 30 kind_ctorInvalidation (hk 30 (by simp))
    · exact fun m => flags_not_mem h o r hr _ 11 (kind_hotReload m) (hk 11 (by simp))
    · exact fun b => flags_not_mem h o r hr _ 31 (kind_hotDispose b) (hk 31 (by simp))
    · exact flags_not_mem h o r hr _ 14 kind_hotClose (hk 14 (by simp))

theorem hot_reload_in_dev_client_witness :
    ∃ r, loader styledHost {} = Except.ok r
      ∧ disposedFlag ∈ r.outputs
      ∧ [hotHead (moduleId styledHost {}), ctorInvalidation, hotReload (moduleId styledHost {}),
          hotDispose true, hotClose] <:+: r.outputs := by
  obtain ⟨r, hr, h1, h2, -⟩ :=
    hot_reload_in_dev_client styledHost {} (by decide) (by decide) (by decide)
  exact ⟨r, hr, h1, h2 (by decide)⟩

/-- C3 as stated fails: a development build for the browser with `options.inject` set
pushes the disposal flag but none of the fragments of the coordinator block. -/
theorem coordinator_absent_with_inject :
    isProduction devHost = false ∧ isServer devHost = false
      ∧ ∃ r, loader devHost { inject := true } = Except.ok r
        ∧ disposedFlag ∈ r.outputs
        ∧ hotHead r.moduleId ∉ r.outputs
        ∧ hotReload r.moduleId ∉ r.outputs
        ∧ hotDispose false ∉ r.outputs ∧ hotDispose true ∉ r.outputs
        ∧ hotClose ∉ r.outputs := by
  refine ⟨by decide, by decide, _, rfl, ?_, ?_, ?_, ?_, ?_, ?_⟩ <;> decide

/-- C4: with at least one style file, a server build declares `var i;` exactly once, in
the injector body and in the whole output, and every style fragment of the body has the
form `;(i=<code>,i.__inject__&&i.__inject__(ssrContext),i)`, with one or with two style
files; a client build never pushes `var i;` and every style fragment of the body is the
code between two spaces and a newline. -/
theorem style_fragments_follow_target (h : Host) (o : Options)
    (hx : extractorMissing h o = false)
    (hC : cssModuleExists h = true ∨ cssIndexExists h = true) :
    ∃ r ls, loader h o = Except.ok r ∧ loaders h o = Except.ok ls
      ∧ (isServer h = true →
          r.styleInjectionCodes =
            [injectStyleHead, scratchDecl]
              ++ (if cssModuleExists h then
                    [bindFragment "$style" (getRequire h ls.css (cssModuleFilePath h)),
                     ";(i=" ++ assignCode "$style"
                       ++ ",i.__inject__&&i.__inject__(ssrContext),i)\n"]
                  else [])
              ++ (if cssIndexExists h then
                    [";(i=" ++ getRequire h ls.css (cssIndexFilePath h)
                       ++ ",i.__inject__&&i.__inject__(ssrContext),i)\n"]
                  else [])
              ++ [injectStyleClose]
            ∧ r.styleInjectionCodes.count scratchDecl = 1
            ∧ r.outputs.count scratchDecl = 1)
      ∧ (isServer h = false →
          r.styleInjectionCodes =
            [injectStyleHead] ++ (if needsHotReload h then [disposedGuard] else [])
              ++ (if cssModuleExists h then
                    [bindFragment "$style" (getRequire h ls.css (cssModuleFilePath h)),
                     "  " ++ (if needsHotReload h then registryCode "$style"
                              else assignCode "$style") ++ "\n"]
                      ++ (if needsHotReload h then [accessorFragment "$style"] else [])
                  else [])
              ++ (if cssIndexExists h then
                    ["  " ++ getRequire h ls.css (cssIndexFilePath h) ++ "\n"]
                  else [])
              ++ [injectStyleClose]
            ∧ scratchDecl ∉ r.outputs) := by
  obtain ⟨ls, hl⟩ := loaders_ok h o hx
  obtain ⟨r, hr, ho, -, hc, -⟩ := loader_of_loaders h o ls hl
  have hC' : (cssModuleExists h || cssIndexExists h) = true := by
    rcases hC with e | e <;> simp [e]
  have hinfix : r.styleInjectionCodes <:+: r.outputs := by
    rw [ho, styleBlock_outputs, hc]
    simp only [List.append_assoc]
    rw [← List.append_assoc, ← List.append_assoc, ← List.append_assoc]
    exact List.infix_append _ _ _
  refine ⟨r, ls, hr, hl, ?_, ?_⟩
  · intro hS
    have hN : needsHotReload h = false := by simp [needsHotReload, hS]
    have hcodes : r.styleInjectionCodes =
        [injectStyleHead, scratchDecl]
          ++ (if cssModuleExists h then
                [bindFragment "$style" (getRequire h ls.css (cssModuleFilePath h)),
                 ";(i=" ++ assignCode "$style"
                   ++ ",i.__inject__&&i.__inject__(ssrContext),i)\n"]
              else [])
          ++ (if cssIndexExists h then
                [";(i=" ++ getRequire h ls.css (cssIndexFilePath h)
                   ++ ",i.__inject__&&i.__inject__(ssrContext),i)\n"]
              else [])
          ++ [injectStyleClose] := by
      rw [hc, styleBlock_codes, hC', hS, hN]
      simp [invokeStyle]
    have hmem : scratchDecl ∈ r.styleInjectionCodes := by
      rw [hcodes]
      simp
    have hle : r.outputs.count scratchDecl ≤ 1 := by
      have key : ∀ p m i t j e : Bool, (outputKinds true p m i t j e).count 2 ≤ 1 := by decide
      calc r.outputs.count scratchDecl
          ≤ (r.outputs.map kind).count (kind scratchDecl) := List.count_le_count_map _ _ _
        _ = (outputKinds (isServer h) (isProduction h) (cssModuleExists h) (cssIndexExists h)
              (htmlExists h) o.inject o.esModule).count 2 := by
            rw [kinds_outputs h o r hr, kind_scratchDecl]
        _ ≤ 1 := by rw [hS]; exact key _ _ _ _ _ _
    have h1 : 1 ≤ r.styleInjectionCodes.count scratchDecl := List.one_le_count_iff.mpr hmem
    have h2 := hinfix.count_le scratchDecl
    exact ⟨hcodes, by omega, by omega⟩
  · intro hS
    refine ⟨?_, ?_⟩
    · rw [hc, styleBlock_codes, hC', hS]
      cases hN : needsHotReload h <;> simp [invokeStyle]
    · have key : ∀ p m i t j e : Bool, 2 ∉ outputKinds false p m i t j e := by decide
      exact flags_not_mem h o r hr _ 2 kind_scratchDecl (by rw [hS]; exact key _ _ _ _ _ _)

theorem style_fragments_follow_target_witness :
    ∃ r, loader serverHost {} = Except.ok r
      ∧ r.styleInjectionCodes.count scratchDecl = 1 ∧ r.outputs.count scratchDecl = 1 := by
  obtain ⟨r, ls, hr, -, h1, -⟩ :=
    style_fragments_follow_target serverHost {} (by decide) (Or.inl (by decide))
  exact ⟨r, hr, (h1 (by decide)).2.1, (h1 (by decide)).2.2⟩

/-- C5, as the code has it: the call of the normalizer always has five argument
fragments, in the order script, template, styles, scope id, module identifier; the
fifth is the JSON-quoted hash of the request in a server build and the literal `null` in
a client build. -/
theorem normalizer_call_has_five_arguments (h : Host) (o : Options)
    (hx : extractorMissing h o = false) :
    ∃ r ls, loader h o = Except.ok r ∧ loaders h o = Except.ok ls
      ∧ normalizerArguments r.outputs =
          [(if o.inject then getRequire h ls.js h.resourcePath ++ "(injections)"
            else getRequire h ls.js h.resourcePath) ++ ",",
           if htmlExists h then getRequire h ls.html (htmlFilePath h) ++ "," else "null,",
           (if cssModuleExists h || cssIndexExists h then "injectStyle" else "null") ++ ",",
           "null,",
           if isServer h then jsonString (h.hash h.request) else "null"]
      ∧ (normalizerArguments r.outputs).length = 5 := by
  obtain ⟨ls, hl⟩ := loaders_ok h o hx
  obtain ⟨r, hr, -⟩ := loader_of_loaders h o ls hl
  have e := normalizerArguments_eq h o ls r hl hr
  exact ⟨r, ls, hr, hl, e, by rw [e]; rfl⟩

theorem normalizer_call_has_five_arguments_witness :
    ∃ r, loader serverHost {} = Except.ok r ∧ (normalizerArguments r.outputs).length = 5 := by
  obtain ⟨r, ls, hr, -, -, h2⟩ := normalizer_call_has_five_arguments serverHost {} (by decide)
  exact ⟨r, hr, h2⟩

/-- C5 as stated fails: for a client request with the script only, the call has five
argument fragments, the fifth being the literal `null`, not four. -/
theorem client_call_has_fifth_argument :
    isServer devHost = false ∧ cssModuleExists devHost = false
      ∧ cssIndexExists devHost = false ∧ htmlExists devHost = false
      ∧ ∃ r, loader devHost {} = Except.ok r
        ∧ normalizerArguments r.outputs =
            ["require(\"!!babel-loader!/app/src/button.vue/index.js\"),", "null,", "null,",
             "null,", "null"]
        ∧ (normalizerArguments r.outputs).length ≠ 4 := by
  refine ⟨by decide, by decide, by decide, by decide, _, rfl, ?_, ?_⟩ <;> decide

/-- C6: when `options.extractCSS` is truthy without an `extract` function and
extract-text-webpack-plugin cannot be required, loader resolution fails and the loader
throws the error that names extract-text-webpack-plugin, returning no text; when
`options.extractCSS` is falsy the loader returns and this error is not thrown. -/
theorem missing_extractor_is_fatal (h : Host) (o : Options) :
    (o.extractCSS = ExtractCSS.truthy → h.extractTextPlugin = none →
        loaders h o = Except.error missingExtractorMessage
          ∧ loader h o = Except.error missingExtractorMessage)
      ∧ (o.extractCSS = ExtractCSS.falsy →
          ∃ r, loader h o = Except.ok r ∧ loader h o ≠ Except.error missingExtractorMessage)
      ∧ missingExtractorMessage =
          "[vue-multifile-loader] extractCSS: true requires " ++ "extract-text-webpack-plugin"
            ++ " as a peer dependency." := by
  refine ⟨?_, ?_, by decide⟩
  · intro hE hT
    have hl : loaders h o = Except.error missingExtractorMessage := by
      simp [loaders, defaultLoaders, getCSSExtractLoader, hE, hT]
    exact ⟨hl, by simp [loader, hl]⟩
  · intro hE
    have hx : extractorMissing h o = false := by simp [extractorMissing, hE]
    obtain ⟨ls, hl⟩ := loaders_ok h o hx
    obtain ⟨r, hr, -⟩ := loader_of_loaders h o ls hl
    exact ⟨r, hr, by rw [hr]; simp⟩

theorem missing_extractor_is_fatal_witness :
    loader devHost { extractCSS := ExtractCSS.truthy } = Except.error missingExtractorMessage
      ∧ ∃ r, loader devHost {} = Except.ok r :=
  ⟨((missing_extractor_is_fatal devHost { extractCSS := ExtractCSS.truthy }).1 rfl rfl).2,
    ((missing_extractor_is_fatal devHost {}).2.1 rfl).imp fun _ hr => hr.1⟩

/-- C7: `handleStyle` called twice with the same CSS-module name, the first time while
the name is not bound.  The first source is accepted: the name enters the registry, no
error is reported and the binding of its require is pushed.  The second source is
rejected: the registry is unchanged and holds the name once, exactly one error
`CSS module name "<name>" is not unique!` is added through `emitError` (the function
returns, nothing is thrown), and `invokeStyle` of its require is appended to the injector
body, nothing else being pushed.  The name is non-empty and not a property that `{}`
inherits from `Object.prototype`, which holds for `$style`, the name the loader passes. -/
theorem handleStyle_twice_same_name (h : Host) (srv hot : Bool)
    (l mid p1 p2 name : String) (st : EmitState)
    (hne : name ≠ "") (hp : name ∉ objectPrototypeKeys)
    (hnew : name ∉ st.cssModules.getD []) :
    (handleStyle h srv hot l mid p1 (some name) st).cssModules
        = some (st.cssModules.getD [] ++ [name])
      ∧ (handleStyle h srv hot l mid p1 (some name) st).errors = st.errors
      ∧ bindFragment name (getRequire h l p1)
          ∈ (handleStyle h srv hot l mid p1 (some name) st).styleInjectionCodes
      ∧ (handleStyle h srv hot l mid p2 (some name)
            (handleStyle h srv hot l mid p1 (some name) st)).cssModules
          = some (st.cssModules.getD [] ++ [name])
      ∧ ((handleStyle h srv hot l mid p2 (some name)
            (handleStyle h srv hot l mid p1 (some name) st)).cssModules.getD []).count name = 1
      ∧ (handleStyle h srv hot l mid p2 (some name)
            (handleStyle h srv hot l mid p1 (some name) st)).errors
          = st.errors ++ [duplicateNameError name]
      ∧ (handleStyle h srv hot l mid p2 (some name)
            (handleStyle h srv hot l mid p1 (some name) st)).styleInjectionCodes
          = (handleStyle h srv hot l mid p1 (some name) st).styleInjectionCodes
              ++ [invokeStyle srv true (getRequire h l p2)]
      ∧ (handleStyle h srv hot l mid p2 (some name)
            (handleStyle h srv hot l mid p1 (some name) st)).outputs
          = (handleStyle h srv hot l mid p1 (some name) st).outputs := by
  have ht : jsTruthy (some name) = true := by simp [jsTruthy, hne]
  have hcount : ∀ reg : List String, name ∉ reg → (reg ++ [name]).count name = 1 := by
    intro reg hreg
    rw [List.count_append, List.count_eq_zero.mpr hreg]
    simp
  cases hreg : st.cssModules with
  | none =>
    have hj : jsIn name [] = false := by simp [jsIn, hp]
    have hj' : jsIn name [name] = true := by simp [jsIn]
    cases hot <;> simp [handleStyle, hreg, hj, hj', ht]
  | some reg =>
    have hnew' : name ∉ reg := by simpa [hreg] using hnew
    have hj : jsIn name reg = false := by simp [jsIn, hp, hnew']
    have hj' : jsIn name (reg ++ [name]) = true := by simp [jsIn]
    cases hot <;> simp [handleStyle, hreg, hj, hj', ht, hcount reg hnew']

theorem handleStyle_twice_same_name_witness :
    (handleStyle styledHost false true "css-loader" "data-v-7ba5bd90"
        "/app/src/button.vue/index.css" (some "$style")
        (handleStyle styledHost false true "css-loader" "data-v-7ba5bd90"
          "/app/src/button.vue/module.css" (some "$style")
          { outputs := [disposedFlag], styleInjectionCodes := [injectStyleHead, disposedGuard],
            cssModules := none, errors := [] })).cssModules = some ["$style"]
      ∧ (handleStyle styledHost false true "css-loader" "data-v-7ba5bd90"
        "/app/src/button.vue/index.css" (some "$style")
        (handleStyle styledHost false true "css-loader" "data-v-7ba5bd90"
          "/app/src/button.vue/module.css" (some "$style")
          { outputs := [disposedFlag], styleInjectionCodes := [injectStyleHead, disposedGuard],
            cssModules := none, errors := [] })).errors
          = ["CSS module name \"$style\" is not unique!"] :=
  ⟨(handleStyle_twice_same_name styledHost false true "css-loader" "data-v-7ba5bd90"
      "/app/src/button.vue/module.css" "/app/src/button.vue/index.css" "$style"
      { outputs := [disposedFlag], styleInjectionCodes := [injectStyleHead, disposedGuard],
        cssModules := none, errors := [] } (by decide) (by decide) (by decide)).2.2.2.1,
   (handleStyle_twice_same_name styledHost false true "css-loader" "data-v-7ba5bd90"
      "/app/src/button.vue/module.css" "/app/src/button.vue/index.css" "$style"
      { outputs := [disposedFlag], styleInjectionCodes := [injectStyleHead, disposedGuard],
        cssModules := none, errors := [] } (by decide) (by decide) (by decide)).2.2.2.2.2.1⟩

/-- Why the name must not be an inherited one: `"constructor" in {}` is true, so with the
name `constructor`, which the loader never passes, `handleStyle` would take the
duplicate-name branch on both calls and bind nothing. -/
theorem handleStyle_twice_inherited_name :
    (handleStyle styledHost false false "css-loader" "data-v-7ba5bd90"
        "/app/src/button.vue/index.css" (some "constructor")
        (handleStyle styledHost false false "css-loader" "data-v-7ba5bd90"
          "/app/src/button.vue/module.css" (some "constructor")
          { outputs := [], styleInjectionCodes := [injectStyleHead], cssModules := none,
            errors := [] }))
      = { outputs := [cssModulesDecl]
          styleInjectionCodes :=
            [injectStyleHead,
             "  require(\"!!css-loader!/app/src/button.vue/module.css\")\n",
             "  require(\"!!css-loader!/app/src/button.vue/index.css\")\n"]
          cssModules := some []
          errors :=
            ["CSS module name \"constructor\" is not unique!",
             "CSS module name \"constructor\" is not unique!"] } := by
  decide

/-! ## The merged CSS-module object -/

theorem Obj.get_set (obj : Obj) (k v k' : String) :
    Obj.get (Obj.set obj k v) k' = if k = k' then some v else Obj.get obj k' := by
  induction obj with
  | nil => simp [Obj.set, Obj.get]
  | cons e rest ih =>
    obtain ⟨k0, v0⟩ := e
    by_cases h0 : k0 = k
    · subst h0
      by_cases h1 : k0 = k' <;> simp [Obj.set, Obj.get, h1]
    · by_cases h1 : k0 = k'
      · subst h1
        simp [Obj.set, Obj.get, h0, Ne.symm h0]
      · simp [Obj.set, Obj.get, h0, h1, ih]

theorem Obj.get_eq_none_iff (obj : Obj) (k : String) :
    Obj.get obj k = none ↔ k ∉ Obj.keys obj := by
  induction obj with
  | nil => simp [Obj.get, Obj.keys]
  | cons e rest ih =>
    obtain ⟨k0, v0⟩ := e
    by_cases h0 : k0 = k
    · simp [Obj.get, Obj.keys, h0]
    · have h1 : ¬ k = k0 := fun e => h0 e.symm
      simpa [Obj.get, Obj.keys, h0, h1] using ih

theorem Obj.get_assign (target source : Obj) (k : String)
    (hs : (Obj.keys source).Nodup) :
    Obj.get (Obj.assign target source) k = (Obj.get source k).or (Obj.get target k) := by
  induction source generalizing target with
  | nil => simp [Obj.assign, Obj.get]
  | cons e rest ih =>
    obtain ⟨k0, v0⟩ := e
    have hn : k0 ∉ Obj.keys rest ∧ (Obj.keys rest).Nodup := by
      simpa [Obj.keys] using hs
    have step : Obj.assign target ((k0, v0) :: rest) = Obj.assign (Obj.set target k0 v0) rest :=
      rfl
    rw [step, ih _ hn.2, Obj.get_set]
    by_cases h0 : k0 = k
    · subst h0
      have : Obj.get rest k0 = none := (Obj.get_eq_none_iff rest k0).mpr hn.1
      simp [Obj.get, this]
    · simp [Obj.get, h0]

/-- C8: the object the emitted binding code leaves under the module name.  When the
declared name of the component equals the `root` of the inherited object `A`, it maps
every key of the current object `B` to the value in `B` and every key of `A` that `B`
lacks to the value in `A`, and has no other key; when there is no inherited object, or
the names differ, it is `B` itself.  An object is a list of properties with distinct
keys. -/
theorem bound_module_merges_inherited (A B : Obj) (name : Option String)
    (hA : (Obj.keys A).Nodup) (hB : (Obj.keys B).Nodup) :
    (name = Obj.get A "root" →
        (∀ k v, Obj.get B k = some v → Obj.get (boundCssModule (some A) name B) k = some v)
          ∧ (∀ k, Obj.get B k = none →
              Obj.get (boundCssModule (some A) name B) k = Obj.get A k)
          ∧ (∀ k, k ∈ Obj.keys (boundCssModule (some A) name B)
              ↔ k ∈ Obj.keys A ∨ k ∈ Obj.keys B))
      ∧ (name ≠ Obj.get A "root" → boundCssModule (some A) name B = B)
      ∧ boundCssModule none name B = B := by
  refine ⟨?_, ?_, rfl⟩
  · intro hn
    have hget : ∀ k, Obj.get (boundCssModule (some A) name B) k
        = (Obj.get B k).or (Obj.get A k) := by
      intro k
      simp only [boundCssModule, hn, if_true]
      rw [Obj.get_assign _ _ _ hB, Obj.get_assign _ _ _ hA]
      simp [Obj.get]
    refine ⟨?_, ?_, ?_⟩
    · intro k v hk
      rw [hget, hk]
      rfl
    · intro k hk
      rw [hget, hk]
      rfl
    · intro k
      have := Obj.get_eq_none_iff (boundCssModule (some A) name B) k
      rw [hget] at this
      have hA' := Obj.get_eq_none_iff A k
      have hB' := Obj.get_eq_none_iff B k
      cases hb : Obj.get B k <;> cases ha : Obj.get A k <;> simp_all
  · intro hn
    simp [boundCssModule, hn]

theorem bound_module_merges_inherited_witness :
    Obj.get (boundCssModule (some [("root", "button"), ("wrap", "base_wrap"), ("icon", "base_icon")])
        (some "button") [("wrap", "button_wrap"), ("label", "button_label")]) "wrap"
        = some "button_wrap"
      ∧ Obj.get (boundCssModule (some [("root", "button"), ("wrap", "base_wrap"), ("icon", "base_icon")])
        (some "button") [("wrap", "button_wrap"), ("label", "button_label")]) "icon"
        = some "base_icon" :=
  ⟨((bound_module_merges_inherited
        [("root", "button"), ("wrap", "base_wrap"), ("icon", "base_icon")]
        [("wrap", "button_wrap"), ("label", "button_label")] (some "button")
        (by decide) (by decide)).1 (by decide)).1 "wrap" "button_wrap" (by decide),
   (((bound_module_merges_inherited
        [("root", "button"), ("wrap", "base_wrap"), ("icon", "base_icon")]
        [("wrap", "button_wrap"), ("label", "button_label")] (some "button")
        (by decide) (by decide)).1 (by decide)).2.1 "icon" (by decide)).trans (by decide)⟩

/-- C9: with `options.inject` falsy the returned text is the fragments joined by
newlines and the last fragment is the ES-module export when `options.esModule` is truthy
and `module.exports = Component.exports;` otherwise, the two export fragments occurring
once in total; with `options.inject` truthy the returned text is the factory
`module.exports = function (injections) { ... return Component.exports; }` around the
joined fragments, and neither export fragment nor any fragment of the coordinator block
is pushed, whatever `options.esModule` is. -/
theorem export_shape_follows_options (h : Host) (o : Options)
    (hx : extractorMissing h o = false) :
    ∃ r, loader h o = Except.ok r
      ∧ (o.inject = false →
          r.text = String.intercalate "\n" r.outputs
            ∧ r.outputs.getLast? = some (if o.esModule then esModuleExport else plainExport)
            ∧ r.outputs.count esModuleExport + r.outputs.count plainExport = 1
            ∧ (o.esModule = true → plainExport ∉ r.outputs)
            ∧ (o.esModule = false → esModuleExport ∉ r.outputs))
      ∧ (o.inject = true →
          r.text =
              "/* dependency injection */\n            module.exports = function (injections) \x7b\n                "
                ++ String.intercalate "\n" r.outputs
                ++ "\n                return Component.exports;\n            \x7d;"
            ∧ esModuleExport ∉ r.outputs ∧ plainExport ∉ r.outputs
            ∧ (∀ m, hotHead m ∉ r.outputs) ∧ ctorInvalidation ∉ r.outputs
            ∧ (∀ m, hotReload m ∉ r.outputs) ∧ (∀ b, hotDispose b ∉ r.outputs)
            ∧ hotClose ∉ r.outputs) := by
  obtain ⟨ls, hl⟩ := loaders_ok h o hx
  obtain ⟨r, hr, ho, ht, -⟩ := loader_of_loaders h o ls hl
  have hkinds := kinds_outputs h o r hr
  refine ⟨r, hr, ?_, ?_⟩
  · intro hJ
    have hlast : r.outputs.getLast? = some (if o.esModule then esModuleExport else plainExport) := by
      rw [ho, hJ]
      simp only [Bool.false_eq_true, if_false, ← List.append_assoc]
      exact List.getLast?_concat _
    have hmem := List.mem_of_getLast?_eq_some hlast
    have he : r.outputs.count esModuleExport ≤ (r.outputs.map kind).count 12 := by
      have := List.count_le_count_map r.outputs kind esModuleExport
      rwa [kind_esModuleExport] at this
    have hp : r.outputs.count plainExport ≤ (r.outputs.map kind).count 32 := by
      have := List.count_le_count_map r.outputs kind plainExport
      rwa [kind_plainExport] at this
    rw [hkinds, hJ] at he hp
    have key : ∀ s p m i t : Bool,
        (outputKinds s p m i t false true).count 12 = 1
          ∧ (outputKinds s p m i t false true).count 32 = 0
          ∧ (outputKinds s p m i t false false).count 12 = 0
          ∧ (outputKinds s p m i t false false).count 32 = 1 := by decide
    have k := key (isServer h) (isProduction h) (cssModuleExists h) (cssIndexExists h)
      (htmlExists h)
    refine ⟨by rw [ht, hJ]; rfl, hlast, ?_, ?_, ?_⟩
    · cases hE : o.esModule
      · rw [hE] at he hp hmem
        have : 1 ≤ r.outputs.count plainExport := List.one_le_count_iff.mpr (by simpa using hmem)
        omega
      · rw [hE] at he hp hmem
        have : 1 ≤ r.outputs.count esModuleExport := List.one_le_count_iff.mpr (by simpa using hmem)
        omega
    · intro hE
      rw [hE] at hp
      exact List.count_eq_zero.mp (by omega)
    · intro hE
      rw [hE] at he
      exact List.count_eq_zero.mp (by omega)
  · intro hJ
    have hk : ∀ k ∈ [12, 32, 10, 30, 11, 31, 14],
        k ∉ outputKinds (isServer h) (isProduction h) (cssModuleExists h)
          (cssIndexExists h) (htmlExists h) o.inject o.esModule := by
      have key : ∀ s p m i t e : Bool,
          ∀ k ∈ [12, 32, 10, 30, 11, 31, 14], k ∉ outputKinds s p m i t true e := by decide
      rw [hJ]
      exact key _ _ _ _ _ _
    refine ⟨by rw [ht, hJ]; rfl, ?_, ?_, ?_, ?_, ?_, ?_, ?_⟩
    · exact flags_not_mem h o r hr _ 12 kind_esModuleExport (hk 12 (by simp))
    · exact flags_not_mem h o r hr _ 32 kind_plainExport (hk 32 (by simp))
    · exact fun m => flags_not_mem h o r hr _ 10 (kind_hotHead m) (hk 10 (by simp))
    · exact flags_not_mem h o r hr _ 30 kind_ctorInvalidation (hk 30 (by simp))
    · exact fun m => flags_not_mem h o r hr _ 11 (kind_hotReload m) (hk 11 (by simp))
    · exact fun b => flags_not_mem h o r hr _ 31 (kind_hotDispose b) (hk 31 (by simp))
    · exact flags_not_mem h o r hr _ 14 kind_hotClose (hk 14 (by simp))

theorem export_shape_follows_options_witness :
    ∃ r, loader styledHost { esModule := true } = Except.ok r
      ∧ r.outputs.getLast? = some esModuleExport ∧ plainExport ∉ r.outputs := by
  obtain ⟨r, hr, h1, -⟩ :=
    export_shape_follows_options styledHost { esModule := true } (by decide)
  exact ⟨r, hr, (h1 (by decide)).2.1, (h1 (by decide)).2.2.2.1 (by decide)⟩

/-- C10: each of the three resolved loader references is the host's override for its
kind when `options.loaders` supplies one, whole and with nothing of the default added, and
the default of that kind otherwise; the defaults do not depend on the overrides, so an
override of one kind leaves the other two references as they were.  The resolved
references are the ones the script and the template are required through. -/
theorem overrides_replace_defaults_per_kind (h : Host) (o : Options)
    (hx : extractorMissing h o = false) :
    ∃ d, defaultLoaders h o = Except.ok d
      ∧ d.html = h.templateCompilerPath ++ templateCompilerOptions h o
      ∧ d.js = (if h.hasBuble then "buble-loader" ++ bubleOptions h o
                else if h.hasBabel then "babel-loader" else "")
      ∧ ∀ ov : LoaderOverrides,
          loaders h { o with loaders := ov }
              = Except.ok
                  { html := ov.html.getD d.html, css := ov.css.getD d.css, js := ov.js.getD d.js }
            ∧ ∃ r, loader h { o with loaders := ov } = Except.ok r
              ∧ (if o.inject then getRequire h (ov.js.getD d.js) h.resourcePath ++ "(injections)"
                 else getRequire h (ov.js.getD d.js) h.resourcePath) ++ "," ∈ r.outputs
              ∧ (htmlExists h = true →
                  getRequire h (ov.html.getD d.html) (htmlFilePath h) ++ "," ∈ r.outputs) := by
  have hd : ∃ d, defaultLoaders h o = Except.ok d := by
    obtain ⟨ls, hl⟩ := loaders_ok h o hx
    unfold loaders at hl
    cases hd : defaultLoaders h o with
    | error e => simp [hd] at hl
    | ok d => exact ⟨d, rfl⟩
  obtain ⟨d, hd⟩ := hd
  have hparts : d.html = h.templateCompilerPath ++ templateCompilerOptions h o
      ∧ d.js = (if h.hasBuble then "buble-loader" ++ bubleOptions h o
                else if h.hasBabel then "babel-loader" else "") := by
    have key : ∀ c : Except String String,
        (match c with
          | Except.ok css =>
            (Except.ok
              { html := h.templateCompilerPath ++ templateCompilerOptions h o
                css := css
                js := if h.hasBuble then "buble-loader" ++ bubleOptions h o
                      else if h.hasBabel then "babel-loader" else "" } : Except String Loaders)
          | Except.error e => Except.error e) = Except.ok d →
        d.html = h.templateCompilerPath ++ templateCompilerOptions h o
          ∧ d.js = (if h.hasBuble then "buble-loader" ++ bubleOptions h o
                    else if h.hasBabel then "babel-loader" else "") := by
      intro c hc
      cases c with
      | error e => cases hc
      | ok css =>
        cases hc
        exact ⟨rfl, rfl⟩
    exact key _ hd
  refine ⟨d, hd, hparts.1, hparts.2, ?_⟩
  intro ov
  have hd' : defaultLoaders h { o with loaders := ov } = Except.ok d := hd
  have hl : loaders h { o with loaders := ov }
      = Except.ok
          { html := ov.html.getD d.html, css := ov.css.getD d.css, js := ov.js.getD d.js } := by
    unfold loaders
    rw [hd']
    cases ov with
    | mk a b c => cases a <;> cases b <;> cases c <;> rfl
  obtain ⟨r, hr, ho, -⟩ := loader_of_loaders h _ _ hl
  refine ⟨hl, r, hr, ?_, ?_⟩
  · rw [ho, normalizerCall_eq]
    simp
  · intro hH
    rw [ho, normalizerCall_eq, hH]
    simp

theorem overrides_replace_defaults_per_kind_witness :
    ∃ d, defaultLoaders devHost {} = Except.ok d
      ∧ loaders devHost { loaders := { js := some "ts-loader" } }
          = Except.ok { html := d.html, css := d.css, js := "ts-loader" } := by
  obtain ⟨d, hd, -, -, hov⟩ := overrides_replace_defaults_per_kind devHost {} (by decide)
  exact ⟨d, hd, (hov { js := some "ts-loader" }).1⟩

/-- C11: the serialized css-loader options are the JSON object whose `sourceMap` is true
exactly when the build is not production, the host's `sourceMap` flag is set and
`options.cssSourceMap` is not `false` (so never in production), whose `minimize` is true
exactly when the build is production, whose `modules` is `true`, and whose
`localIdentName` is the component name followed by `_[local]`; the default css loader
passes them to css-loader. -/
theorem css_loader_options_follow_build_mode (h : Host) (o : Options) :
    ∃ sourceMap minimize : Bool,
      cssLoaderOptions h o =
          "?\x7b\"sourceMap\":" ++ jsonBool sourceMap ++ ",\"minimize\":" ++ jsonBool minimize
            ++ ",\"modules\":true,\"importLoaders\":1,\"localIdentName\":"
            ++ jsonString (vueName h ++ "_[local]") ++ "\x7d"
        ∧ (sourceMap = true ↔
            isProduction h = false ∧ h.sourceMap = true ∧ o.cssSourceMap ≠ some false)
        ∧ (isProduction h = true → sourceMap = false)
        ∧ (minimize = true ↔ isProduction h = true)
        ∧ (o.extractCSS = ExtractCSS.falsy →
            ∃ d, defaultLoaders h o = Except.ok d
              ∧ d.css = "vue-style-loader!css-loader" ++ cssLoaderOptions h o ++ "!"
                  ++ h.styleCompilerPath ++ styleCompilerOptions h o
                  ++ "!import-global-loader") := by
  refine ⟨!isProduction h && h.sourceMap && (o.cssSourceMap != some false), isProduction h,
    ?_, ?_, ?_, Iff.rfl, ?_⟩
  · simp only [cssLoaderOptions, jsonObject, List.filterMap, Option.map, String.intercalate,
      String.intercalate.go]
    have e1 : jsonString "sourceMap" = "\"sourceMap\"" := by decide
    have e2 : jsonString "minimize" = "\"minimize\"" := by decide
    have e3 : jsonString "modules" = "\"modules\"" := by decide
    have e4 : jsonString "importLoaders" = "\"importLoaders\"" := by decide
    have e5 : jsonString "localIdentName" = "\"localIdentName\"" := by decide
    have e6 : jsonBool true = "true" := rfl
    rw [e1, e2, e3, e4, e5, e6]
    apply String.ext
    simp [String.data_append]
  · cases isProduction h <;> cases h.sourceMap <;> cases hc : o.cssSourceMap <;> simp
  · intro hp
    simp [hp]
  · intro hE
    simp only [defaultLoaders, hE]
    exact ⟨_, rfl, rfl⟩

theorem css_loader_options_follow_build_mode_witness :
    cssLoaderOptions productionHost {} =
        "?\x7b\"sourceMap\":false,\"minimize\":true,\"modules\":true,\"importLoaders\":1,\"localIdentName\":\"button_[local]\"\x7d"
      ∧ ∃ d, defaultLoaders productionHost {} = Except.ok d
          ∧ d.css = "vue-style-loader!css-loader" ++ cssLoaderOptions productionHost {} ++ "!"
              ++ productionHost.styleCompilerPath ++ styleCompilerOptions productionHost {}
              ++ "!import-global-loader" := by
  obtain ⟨sm, mn, -, -, -, -, h5⟩ := css_loader_options_follow_build_mode productionHost {}
  exact ⟨by decide, h5 rfl⟩

/-- C12: a second invocation on the context that the first one leaves returns the same
result as the first, so the same text and the same `moduleId`, and leaves the context as
it found it.  The loader writes two things to its context, the `cacheable` mark (line 17)
and `this.options.__vueOptions__` (line 21), and reads neither: whatever they hold
before an invocation, its result is that of `loader` on the host and the merged options.
The request, the options, the files and the helpers are those of the context and are not
changed by an invocation. -/
theorem second_invocation_returns_the_same (ctx : LoaderContext) :
    (invoke (invoke ctx).2).1 = (invoke ctx).1
      ∧ (invoke (invoke ctx).2).2 = (invoke ctx).2
      ∧ (invoke ctx).2.host = ctx.host ∧ (invoke ctx).2.vue = ctx.vue
      ∧ (invoke ctx).2.query = ctx.query
      ∧ (invoke ctx).2.vueOptions = some (mergedOptions ctx)
      ∧ (invoke ctx).2.cacheable = true
      ∧ (∀ slot flag,
          (invoke { ctx with vueOptions := slot, cacheable := flag }).1 = (invoke ctx).1)
      ∧ (∀ r₁, (invoke ctx).1 = Except.ok r₁ →
          ∃ r₂, (invoke (invoke ctx).2).1 = Except.ok r₂
            ∧ r₂.text = r₁.text ∧ r₂.moduleId = r₁.moduleId
            ∧ r₁.moduleId = moduleId ctx.host (mergedOptions ctx)) := by
  refine ⟨rfl, rfl, rfl, rfl, rfl, rfl, rfl, fun _ _ => rfl, ?_⟩
  intro r₁ hr
  refine ⟨r₁, hr, rfl, rfl, ?_⟩
  have hr' : loader ctx.host (mergedOptions ctx) = Except.ok r₁ := hr
  cases hl : loaders ctx.host (mergedOptions ctx) with
  | error e => simp [loader, hl] at hr'
  | ok ls =>
    obtain ⟨r, hr2, -, -, -, -, -, hm⟩ := loader_of_loaders _ _ ls hl
    rw [hr'] at hr2
    cases hr2
    exact hm

theorem second_invocation_returns_the_same_witness :
    ∃ r₁ r₂, (invoke sampleContext).1 = Except.ok r₁
      ∧ (invoke (invoke sampleContext).2).1 = Except.ok r₂
      ∧ r₂.text = r₁.text ∧ r₂.moduleId = r₁.moduleId := by
  obtain ⟨r₂, h2, ht, hm, -⟩ :=
    (second_invocation_returns_the_same sampleContext).2.2.2.2.2.2.2.2 _ rfl
  exact ⟨_, r₂, rfl, h2, ht, hm⟩

/-- What `loader` reads of the host: two hosts give the same result (the same text,
fragments, reported errors and `moduleId`) when they agree on what the loader reads: the
request (`resourcePath`, `request`, `target`, `minimize`, `sourceMap`, the resolved
context), `process.env.NODE_ENV`, the options, the paths resolved when the module was
loaded, Node's `path` functions, the availability of the loaders, the existence of the
three candidate files, `genId` and `hash` at the arguments passed, and
`stringifyRequest`.  Nothing else of the host is read: the working directory, other
files and other results of the helpers may differ between the two hosts. -/
theorem loader_deterministic (h₁ h₂ : Host) (o : Options)
    (hTarget : h₁.target = h₂.target) (hMinimize : h₁.minimize = h₂.minimize)
    (hNodeEnv : h₁.nodeEnv = h₂.nodeEnv) (hSourceMap : h₁.sourceMap = h₂.sourceMap)
    (hResource : h₁.resourcePath = h₂.resourcePath) (hRequest : h₁.request = h₂.request)
    (hContext : context h₁ = context h₂)
    (hBabel : h₁.hasBabel = h₂.hasBabel) (hBuble : h₁.hasBuble = h₂.hasBuble)
    (hExtract : h₁.extractTextPlugin = h₂.extractTextPlugin)
    (hStyleCompiler : h₁.styleCompilerPath = h₂.styleCompilerPath)
    (hTemplateCompiler : h₁.templateCompilerPath = h₂.templateCompilerPath)
    (hNormalizer : h₁.componentNormalizerPath = h₂.componentNormalizerPath)
    (hDirname : h₁.dirname = h₂.dirname) (hBasename : h₁.basename = h₂.basename)
    (hJoin : h₁.join = h₂.join)
    (hModuleCss : h₁.existsSync (cssModuleFilePath h₁) = h₂.existsSync (cssModuleFilePath h₁))
    (hIndexCss : h₁.existsSync (cssIndexFilePath h₁) = h₂.existsSync (cssIndexFilePath h₁))
    (hIndexHtml : h₁.existsSync (htmlFilePath h₁) = h₂.existsSync (htmlFilePath h₁))
    (hGenId : h₁.genId (vuePath h₁) (context h₁) o.hashKey
      = h₂.genId (vuePath h₁) (context h₁) o.hashKey)
    (hHash : h₁.hash h₁.request = h₂.hash h₁.request)
    (hStringify : ∀ s, h₁.stringifyRequest s = h₂.stringifyRequest s) :
    loader h₁ o = loader h₂ o ∧ moduleId h₁ o = moduleId h₂ o := by
  have hStr : h₁.stringifyRequest = h₂.stringifyRequest := funext hStringify
  have e_isServer : isServer h₁ = isServer h₂ := by simp only [isServer, hTarget]
  have e_isProduction : isProduction h₁ = isProduction h₂ := by
    simp only [isProduction, hMinimize, hNodeEnv]
  have e_vuePath : vuePath h₁ = vuePath h₂ := by simp only [vuePath, hDirname, hResource]
  have e_vueName : vueName h₁ = vueName h₂ := by simp only [vueName, e_vuePath, hBasename]
  have e_moduleId : moduleId h₁ o = moduleId h₂ o := by
    unfold moduleId
    rw [hGenId, e_vuePath, hContext]
  have e_needs : needsHotReload h₁ = needsHotReload h₂ := by
    simp only [needsHotReload, e_isServer, e_isProduction]
  have e_modPath : cssModuleFilePath h₁ = cssModuleFilePath h₂ := by
    simp only [cssModuleFilePath, e_vuePath, hJoin]
  have e_idxPath : cssIndexFilePath h₁ = cssIndexFilePath h₂ := by
    simp only [cssIndexFilePath, e_vuePath, hJoin]
  have e_htmlPath : htmlFilePath h₁ = htmlFilePath h₂ := by
    simp only [htmlFilePath, e_vuePath, hJoin]
  have e_mod : cssModuleExists h₁ = cssModuleExists h₂ := by
    unfold cssModuleExists
    rw [hModuleCss, e_modPath]
  have e_idx : cssIndexExists h₁ = cssIndexExists h₂ := by
    unfold cssIndexExists
    rw [hIndexCss, e_idxPath]
  have e_html : htmlExists h₁ = htmlExists h₂ := by
    unfold htmlExists
    rw [hIndexHtml, e_htmlPath]
  have e_cssOptions : cssLoaderOptions h₁ o = cssLoaderOptions h₂ o := by
    simp only [cssLoaderOptions, e_isProduction, hSourceMap, e_vueName]
  have e_styleOptions : styleCompilerOptions h₁ o = styleCompilerOptions h₂ o := by
    simp only [styleCompilerOptions, e_moduleId]
  have e_buble : bubleOptions h₁ o = bubleOptions h₂ o := by
    simp only [bubleOptions, hBuble]
  have e_templateOptions : templateCompilerOptions h₁ o = templateCompilerOptions h₂ o := by
    simp only [templateCompilerOptions, e_moduleId]
  have e_extractLoader : getCSSExtractLoader h₁ o = getCSSExtractLoader h₂ o := by
    simp only [getCSSExtractLoader, hExtract, e_cssOptions]
  have e_defaults : defaultLoaders h₁ o = defaultLoaders h₂ o := by
    simp only [defaultLoaders, e_cssOptions, e_styleOptions, e_buble, e_templateOptions,
      e_extractLoader, hStyleCompiler, hTemplateCompiler, hBabel, hBuble]
  have e_loaders : loaders h₁ o = loaders h₂ o := by
    simp only [loaders, e_defaults]
  have e_requirePath : ∀ l p, getRequirePath h₁ l p = getRequirePath h₂ l p := by
    intro l p
    simp only [getRequirePath, hStr]
  have e_require : ∀ l p, getRequire h₁ l p = getRequire h₂ l p := by
    intro l p
    simp only [getRequire, e_requirePath]
  have e_handle : ∀ s n l m p name st,
      handleStyle h₁ s n l m p name st = handleStyle h₂ s n l m p name st := by
    intro s n l m p name st
    simp only [handleStyle, e_require, e_requirePath]
  have e_style : ∀ m ls, styleBlock h₁ m ls = styleBlock h₂ m ls := by
    intro m ls
    simp only [styleBlock, e_needs, e_mod, e_idx, e_isServer, e_modPath, e_idxPath, e_handle]
  have e_call : ∀ ls, normalizerCall h₁ o ls = normalizerCall h₂ o ls := by
    intro ls
    have eh : h₁.hash h₁.request = h₂.hash h₂.request := by rw [hHash, hRequest]
    simp only [normalizerCall, hStr, hNormalizer, e_require, hResource, e_html, e_htmlPath,
      e_mod, e_idx, e_isServer, eh]
  have e_dev : developmentCode h₁ = developmentCode h₂ := by
    simp only [developmentCode, e_isProduction, hResource, e_html, e_vueName]
  have e_hot : ∀ m reg, hotReloadCode h₁ m reg = hotReloadCode h₂ m reg := by
    intro m reg
    simp only [hotReloadCode, e_needs]
  refine ⟨?_, e_moduleId⟩
  simp only [loader, e_moduleId, e_loaders, e_style, e_call, e_dev, e_hot]

theorem loader_deterministic_witness :
    styledHost.cwd ≠ secondHost.cwd ∧ styledHost.existsSync ≠ secondHost.existsSync
      ∧ loader styledHost {} = loader secondHost {}
      ∧ moduleId styledHost {} = moduleId secondHost {} :=
  ⟨by decide,
   fun e => absurd (congrFun e "/app/src/other.vue/index.css") (by decide),
   loader_deterministic styledHost secondHost {} rfl rfl rfl rfl rfl rfl (by decide) rfl rfl rfl
     rfl rfl rfl rfl rfl rfl (by decide) (by decide) (by decide) (by decide) (by decide)
     (fun _ => rfl)⟩

/-! ## Telling the style codes apart -/

theorem codeKind_assign (n : String) : codeKind (invokeStyle false true (assignCode n)) = 0 := rfl
theorem codeKind_registry (n : String) :
    codeKind (invokeStyle false true (registryCode n)) = 1 := rfl
theorem codeKind_require (h : Host) (l p : String) :
    codeKind (invokeStyle false true (getRequire h l p)) = 2 := rfl
theorem codeKind_assign_server (n : String) :
    codeKind (invokeStyle true true (assignCode n)) = 3 := rfl
theorem codeKind_registry_server (n : String) :
    codeKind (invokeStyle true true (registryCode n)) = 4 := rfl
theorem codeKind_require_server (h : Host) (l p : String) :
    codeKind (invokeStyle true true (getRequire h l p)) = 5 := rfl

theorem mem_map_kind {x : String} {l : List String} {ks : List Nat}
    (hl : l.map kind = ks) (hx : x ∈ l) : kind x ∈ ks :=
  hl ▸ List.mem_map_of_mem kind hx

theorem mem_kind_unique {l : List String} {k : Nat} {a b : String}
    (hc : (l.map kind).count k ≤ 1) (ha : a ∈ l) (hb : b ∈ l)
    (hka : kind a = k) (hkb : kind b = k) : a = b := by
  induction l with
  | nil => cases ha
  | cons x t ih =>
    rw [List.map_cons, List.count_cons] at hc
    rcases List.mem_cons.mp ha with rfl | ha' <;> rcases List.mem_cons.mp hb with rfl | hb'
    · rfl
    · have : 1 ≤ (t.map kind).count k :=
        List.one_le_count_iff.mpr (hkb ▸ List.mem_map_of_mem kind hb')
      simp [hka] at hc
      omega
    · have : 1 ≤ (t.map kind).count k :=
        List.one_le_count_iff.mpr (hka ▸ List.mem_map_of_mem kind ha')
      simp [hkb] at hc
      omega
    · exact ih (by split at hc <;> omega) ha' hb'

/-- The fragments that `invokeStyle` produced are the only ones of kind 6 or 7. -/
theorem style_code_cases (h : Host) (o : Options) (ls : Loaders) (r : Emission)
    (hl : loaders h o = Except.ok ls) (hr : loader h o = Except.ok r) (x : String)
    (hx : x ∈ r.outputs) (hk : kind x = 6 ∨ kind x = 7) :
    (cssModuleExists h = true
        ∧ x = invokeStyle (isServer h) true
            (if needsHotReload h then registryCode "$style" else assignCode "$style"))
      ∨ (cssIndexExists h = true
        ∧ x = invokeStyle (isServer h) true (getRequire h ls.css (cssIndexFilePath h))) := by
  obtain ⟨r', hr', ho, -⟩ := loader_of_loaders h o ls hl
  rw [hr] at hr'
  cases hr'
  have hk' : kind x ∈ [6, 7] := by
    rcases hk with e | e <;> simp [e]
  rw [ho] at hx
  simp only [List.mem_append] at hx
  rcases hx with ((hx | hx) | hx) | hx
  · rw [styleBlock_outputs, styleBlock_codes] at hx
    have hf : x ∈ List.filter (fun y => decide (kind y ∈ [6, 7])) _ :=
      List.mem_filter.mpr ⟨hx, by simpa using hk'⟩
    revert hf
    unfold needsHotReload
    cases hS : isServer h <;> cases hP : isProduction h <;> cases hM : cssModuleExists h <;>
      cases hI : cssIndexExists h <;>
      simp [List.filter, kind_disposedFlag, kind_cssModulesDecl, kind_scratchDecl,
        kind_injectStyleHead, kind_disposedGuard, kind_invokeStyle_require,
        kind_invokeStyle_registry, kind_invokeStyle_assign, kind_invokeStyle_server,
        kind_acceptFragment, kind_bindFragment, kind_accessorFragment, kind_injectStyleClose]
  · exfalso
    have := mem_map_kind (kinds_normalizerCall h o ls) hx
    revert this hk'
    generalize kind x = k
    cases htmlExists h <;> cases (cssModuleExists h || cssIndexExists h) <;> cases isServer h <;>
      simp <;> omega
  · exfalso
    have := mem_map_kind (kinds_developmentCode h) hx
    revert this hk'
    generalize kind x = k
    cases htmlExists h <;> cases isProduction h <;> simp <;> omega
  · exfalso
    revert hx
    cases hJ : o.inject
    · simp only [Bool.false_eq_true, if_false, List.mem_append, List.mem_singleton]
      rintro (hx | hx)
      · have := mem_map_kind (kinds_hotReloadCode h _ _) hx
        revert this hk'
        generalize kind x = k
        cases (styleBlock h (moduleId h o) ls).cssModules.isSome <;> cases isProduction h <;>
          cases isServer h <;> simp <;> omega
      · subst hx
        revert hk'
        cases o.esModule <;> simp [kind_esModuleExport, kind_plainExport]
    · simp

theorem assign_code_cases (h : Host) (o : Options) (ls : Loaders) (r : Emission)
    (hl : loaders h o = Except.ok ls) (hr : loader h o = Except.ok r) (s : Bool) (n : String)
    (hx : invokeStyle s true (assignCode n) ∈ r.outputs) :
    cssModuleExists h = true ∧ needsHotReload h = false := by
  have hk : kind (invokeStyle s true (assignCode n)) = 6
      ∨ kind (invokeStyle s true (assignCode n)) = 7 := by
    cases s
    · exact Or.inl (kind_invokeStyle_assign n)
    · exact Or.inr (kind_invokeStyle_server _)
  rcases style_code_cases h o ls r hl hr _ hx hk with ⟨hM, e⟩ | ⟨-, e⟩
  · refine ⟨hM, ?_⟩
    cases hN : needsHotReload h
    · rfl
    · exfalso
      rw [hN] at e
      have e' := congrArg codeKind e
      revert e'
      cases s <;> cases isServer h <;>
        simp [codeKind_assign, codeKind_registry, codeKind_assign_server,
          codeKind_registry_server]
  · exfalso
    have e' := congrArg codeKind e
    revert e'
    cases s <;> cases isServer h <;>
      simp [codeKind_assign, codeKind_require, codeKind_assign_server, codeKind_require_server]

theorem registry_code_cases (h : Host) (o : Options) (ls : Loaders) (r : Emission)
    (hl : loaders h o = Except.ok ls) (hr : loader h o = Except.ok r) (s : Bool) (n : String)
    (hx : invokeStyle s true (registryCode n) ∈ r.outputs) :
    cssModuleExists h = true ∧ needsHotReload h = true := by
  have hk : kind (invokeStyle s true (registryCode n)) = 6
      ∨ kind (invokeStyle s true (registryCode n)) = 7 := by
    cases s
    · exact Or.inl (kind_invokeStyle_registry n)
    · exact Or.inr (kind_invokeStyle_server _)
  rcases style_code_cases h o ls r hl hr _ hx hk with ⟨hM, e⟩ | ⟨-, e⟩
  · refine ⟨hM, ?_⟩
    cases hN : needsHotReload h
    · exfalso
      rw [hN] at e
      have e' := congrArg codeKind e
      revert e'
      cases s <;> cases isServer h <;>
        simp [codeKind_assign, codeKind_registry, codeKind_assign_server,
          codeKind_registry_server]
    · rfl
  · exfalso
    have e' := congrArg codeKind e
    revert e'
    cases s <;> cases isServer h <;>
      simp [codeKind_registry, codeKind_require, codeKind_registry_server,
        codeKind_require_server]

/-- C13: with `module.css` present, a hot build (development, browser) defines the
accessor `$style` in the injector, pushes no direct assignment `this[...] = ...` and
exactly one accept fragment, the one of the `module.css` asset; a build without hot reload
assigns `this["$style"] = cssModules["$style"]` in the injector and pushes neither an
accessor nor an accept fragment.  Without `module.css` no accept fragment, binding,
accessor, assignment or registry read is pushed, so `index.css` contributes none. -/
theorem style_binding_follows_hot_reload (h : Host) (o : Options)
    (hx : extractorMissing h o = false) :
    ∃ r ls, loader h o = Except.ok r ∧ loaders h o = Except.ok ls
      ∧ (cssModuleExists h = true → needsHotReload h = true →
          accessorFragment "$style" ∈ r.styleInjectionCodes
            ∧ (∀ s n, invokeStyle s true (assignCode n) ∉ r.outputs)
            ∧ acceptFragment (getRequirePath h ls.css (cssModuleFilePath h)) "$style"
                (getRequire h ls.css (cssModuleFilePath h)) (moduleId h o) ∈ r.outputs
            ∧ (∀ p n q m, acceptFragment p n q m ∈ r.outputs →
                acceptFragment p n q m =
                  acceptFragment (getRequirePath h ls.css (cssModuleFilePath h)) "$style"
                    (getRequire h ls.css (cssModuleFilePath h)) (moduleId h o))
            ∧ r.outputs.count
                (acceptFragment (getRequirePath h ls.css (cssModuleFilePath h)) "$style"
                  (getRequire h ls.css (cssModuleFilePath h)) (moduleId h o)) = 1)
      ∧ (cssModuleExists h = true → needsHotReload h = false →
          invokeStyle (isServer h) true (assignCode "$style") ∈ r.styleInjectionCodes
            ∧ (∀ n, accessorFragment n ∉ r.outputs)
            ∧ (∀ p n q m, acceptFragment p n q m ∉ r.outputs))
      ∧ (cssModuleExists h = false →
          (∀ p n q m, acceptFragment p n q m ∉ r.outputs)
            ∧ (∀ n q, bindFragment n q ∉ r.outputs)
            ∧ (∀ n, accessorFragment n ∉ r.outputs)
            ∧ (∀ s n, invokeStyle s true (assignCode n) ∉ r.outputs)
            ∧ (∀ s n, invokeStyle s true (registryCode n) ∉ r.outputs)) := by
  obtain ⟨ls, hl⟩ := loaders_ok h o hx
  obtain ⟨r, hr, ho, -, hc, -⟩ := loader_of_loaders h o ls hl
  have hkinds := kinds_outputs h o r hr
  refine ⟨r, ls, hr, hl, ?_, ?_, ?_⟩
  · intro hM hN
    have hSP : isServer h = false ∧ isProduction h = false := by
      revert hN
      unfold needsHotReload
      cases isServer h <;> cases isProduction h <;> simp
    have hacc : acceptFragment (getRequirePath h ls.css (cssModuleFilePath h)) "$style"
        (getRequire h ls.css (cssModuleFilePath h)) (moduleId h o) ∈ r.outputs := by
      rw [ho, styleBlock_outputs, hM, hN]
      simp
    have hcount : (r.outputs.map kind).count 8 = 1 := by
      have key : ∀ i t j e : Bool, (outputKinds false false true i t j e).count 8 = 1 := by
        decide
      rw [hkinds, hSP.1, hSP.2, hM]
      exact key _ _ _ _
    refine ⟨?_, ?_, hacc, ?_, ?_⟩
    · rw [hc, styleBlock_codes, hM, hN]
      simp
    · intro s n hmem
      have := (assign_code_cases h o ls r hl hr s n hmem).2
      rw [hN] at this
      cases this
    · intro p n q m hmem
      exact mem_kind_unique (by omega) hmem hacc (kind_acceptFragment _ _ _ _)
        (kind_acceptFragment _ _ _ _)
    · have h1 := List.count_le_count_map r.outputs kind
        (acceptFragment (getRequirePath h ls.css (cssModuleFilePath h)) "$style"
          (getRequire h ls.css (cssModuleFilePath h)) (moduleId h o))
      rw [kind_acceptFragment, hcount] at h1
      have h2 := List.one_le_count_iff.mpr hacc
      omega
  · intro hM hN
    have hk : ∀ k ∈ [13, 8], k ∉ outputKinds (isServer h) (isProduction h) (cssModuleExists h)
        (cssIndexExists h) (htmlExists h) o.inject o.esModule := by
      have key : ∀ s p m i t j e : Bool, (!s && !p) = false →
          ∀ k ∈ [13, 8], k ∉ outputKinds s p m i t j e := by decide
      exact key _ _ _ _ _ _ _ hN
    refine ⟨?_, ?_, ?_⟩
    · rw [hc, styleBlock_codes, hM, hN]
      simp
    · exact fun n => flags_not_mem h o r hr _ 13 (kind_accessorFragment n) (hk 13 (by simp))
    · exact fun p n q m =>
        flags_not_mem h o r hr _ 8 (kind_acceptFragment p n q m) (hk 8 (by simp))
  · intro hM
    have hk : ∀ k ∈ [8, 9, 13], k ∉ outputKinds (isServer h) (isProduction h)
        (cssModuleExists h) (cssIndexExists h) (htmlExists h) o.inject o.esModule := by
      have key : ∀ s p i t j e : Bool,
          ∀ k ∈ [8, 9, 13], k ∉ outputKinds s p false i t j e := by decide
      rw [hM]
      exact key _ _ _ _ _ _
    refine ⟨?_, ?_, ?_, ?_, ?_⟩
    · exact fun p n q m =>
        flags_not_mem h o r hr _ 8 (kind_acceptFragment p n q m) (hk 8 (by simp))
    · exact fun n q => flags_not_mem h o r hr _ 9 (kind_bindFragment n q) (hk 9 (by simp))
    · exact fun n => flags_not_mem h o r hr _ 13 (kind_accessorFragment n) (hk 13 (by simp))
    · intro s n hmem
      have := (assign_code_cases h o ls r hl hr s n hmem).1
      rw [hM] at this
      cases this
    · intro s n hmem
      have := (registry_code_cases h o ls r hl hr s n hmem).1
      rw [hM] at this
      cases this

theorem style_binding_follows_hot_reload_witness :
    ∃ r, loader styledHost {} = Except.ok r
      ∧ accessorFragment "$style" ∈ r.styleInjectionCodes
      ∧ (∀ s n, invokeStyle s true (assignCode n) ∉ r.outputs) := by
  obtain ⟨r, ls, hr, -, h1, -⟩ := style_binding_follows_hot_reload styledHost {} (by decide)
  exact ⟨r, hr, (h1 (by decide) (by decide)).1, (h1 (by decide) (by decide)).2.1⟩

/-- What the emitted test does for every carried registry: the two arrays returned by
`Object.keys` are distinct objects, so `!==` holds and the constructor is deleted
whatever the keys are. -/
theorem ctorDeleted_of_carried (next : Nat) (old cssModules : Registry) :
    ctorDeleted next (some old) cssModules = true := by
  simp [ctorDeleted, objectKeys, strictNotEqual]

/-- C14 at equal key sets: a module that is disposed before any component instance has
injected its style carries over the empty registry `{}`; on the reload the registry of
the new module is `{}` as well, so the two key sets are equal (both are empty), and the
emitted test still deletes the cached constructor. -/
theorem reload_deletes_ctor_with_equal_key_sets :
    (objectKeys 0 []).1.items = (objectKeys 1 []).1.items
      ∧ reloadDeletesCtor 0 (some []) = true := by
  decide

/-- Where the emitted test agrees with the intent: a carried registry that holds
`$style` has a key set other than that of the new, still empty, registry, and the
constructor is deleted; with no registry carried over it is kept. -/
theorem reload_deletes_ctor_with_bound_style (next : Nat) (locals : Obj) :
    (objectKeys next [("$style", locals)]).1.items ≠ (objectKeys (next + 1) []).1.items
      ∧ reloadDeletesCtor next (some [("$style", locals)]) = true
      ∧ reloadDeletesCtor next none = false := by
  simp [objectKeys, reloadDeletesCtor, ctorDeleted, strictNotEqual]

/-- C15: in a development build for the browser with at least one style file,
`var disposed = false;` is the first fragment of the output, and the body of `injectStyle`
opens with `if (disposed) return;` right after its head, before the binding, the style
requires and the accessor, which are all that follows up to the closing brace. -/
theorem disposal_guard_comes_first (h : Host) (o : Options)
    (hx : extractorMissing h o = false)
    (hP : isProduction h = false) (hS : isServer h = false)
    (hC : cssModuleExists h = true ∨ cssIndexExists h = true) :
    ∃ r ls, loader h o = Except.ok r ∧ loaders h o = Except.ok ls
      ∧ r.outputs.head? = some disposedFlag
      ∧ r.styleInjectionCodes =
          [injectStyleHead, disposedGuard]
            ++ (if cssModuleExists h then
                  [bindFragment "$style" (getRequire h ls.css (cssModuleFilePath h)),
                   invokeStyle false true (registryCode "$style"),
                   accessorFragment "$style"]
                else [])
            ++ (if cssIndexExists h then
                  [invokeStyle false true (getRequire h ls.css (cssIndexFilePath h))]
                else [])
            ++ [injectStyleClose]
      ∧ r.styleInjectionCodes.count disposedGuard = 1
      ∧ r.styleInjectionCodes <:+: r.outputs := by
  obtain ⟨ls, hl⟩ := loaders_ok h o hx
  obtain ⟨r, hr, ho, -, hc, -⟩ := loader_of_loaders h o ls hl
  have hN : needsHotReload h = true := by simp [needsHotReload, hP, hS]
  have hC' : (cssModuleExists h || cssIndexExists h) = true := by
    rcases hC with e | e <;> simp [e]
  have hinfix : r.styleInjectionCodes <:+: r.outputs := by
    rw [ho, styleBlock_outputs, hc]
    simp only [List.append_assoc]
    rw [← List.append_assoc, ← List.append_assoc, ← List.append_assoc]
    exact List.infix_append _ _ _
  have hcodes : r.styleInjectionCodes =
      [injectStyleHead, disposedGuard]
        ++ (if cssModuleExists h then
              [bindFragment "$style" (getRequire h ls.css (cssModuleFilePath h)),
               invokeStyle false true (registryCode "$style"),
               accessorFragment "$style"]
            else [])
        ++ (if cssIndexExists h then
              [invokeStyle false true (getRequire h ls.css (cssIndexFilePath h))]
            else [])
        ++ [injectStyleClose] := by
    rw [hc, styleBlock_codes, hC', hS, hN]
    cases cssModuleExists h <;> cases cssIndexExists h <;> simp
  refine ⟨r, ls, hr, hl, ?_, hcodes, ?_, hinfix⟩
  · rw [ho, styleBlock_outputs, hN]
    rfl
  · have hmem : disposedGuard ∈ r.styleInjectionCodes := by
      rw [hcodes]
      simp
    have h1 := List.one_le_count_iff.mpr hmem
    have h2 := hinfix.count_le disposedGuard
    have h3 := List.count_le_count_map r.outputs kind disposedGuard
    rw [kinds_outputs h o r hr, kind_disposedGuard] at h3
    have key : ∀ s p m i t j e : Bool, (outputKinds s p m i t j e).count 5 ≤ 1 := by decide
    have h4 := key (isServer h) (isProduction h) (cssModuleExists h) (cssIndexExists h)
      (htmlExists h) o.inject o.esModule
    omega

theorem disposal_guard_comes_first_witness :
    ∃ r, loader styledHost {} = Except.ok r
      ∧ r.outputs.head? = some disposedFlag
      ∧ r.styleInjectionCodes.count disposedGuard = 1 := by
  obtain ⟨r, ls, hr, -, h1, -, h3, -⟩ :=
    disposal_guard_comes_first styledHost {} (by decide) (by decide) (by decide)
      (Or.inl (by decide))
  exact ⟨r, hr, h1, h3⟩

/-- C16: the assignment of `Component.options.__file` and the check of named exports are
pushed exactly when the build is not production, the warning about functional components
with templates exactly when the build is not production and `index.html` exists; in
production no fragment of the three forms is pushed.  The three fragments report with
`console.error`, and the loader itself reports no error. -/
theorem development_diagnostics (h : Host) (o : Options)
    (hx : extractorMissing h o = false) :
    ∃ r, loader h o = Except.ok r
      ∧ (fileFragment h.resourcePath ∈ r.outputs ↔ isProduction h = false)
      ∧ (namedExportsCheck ∈ r.outputs ↔ isProduction h = false)
      ∧ (functionalCheck (vueName h) ∈ r.outputs ↔
          isProduction h = false ∧ htmlExists h = true)
      ∧ (isProduction h = true →
          (∀ p, fileFragment p ∉ r.outputs) ∧ (∀ n, functionalCheck n ∉ r.outputs))
      ∧ (htmlExists h = false → ∀ n, functionalCheck n ∉ r.outputs)
      ∧ r.errors = [] := by
  obtain ⟨ls, hl⟩ := loaders_ok h o hx
  obtain ⟨r, hr, ho, -, -, -, he, -⟩ := loader_of_loaders h o ls hl
  have hprod : isProduction h = true → ∀ k ∈ [27, 28, 29],
      k ∉ outputKinds (isServer h) (isProduction h) (cssModuleExists h)
        (cssIndexExists h) (htmlExists h) o.inject o.esModule := by
    intro hP
    have key : ∀ s m i t j e : Bool,
        ∀ k ∈ [27, 28, 29], k ∉ outputKinds s true m i t j e := by decide
    rw [hP]
    exact key _ _ _ _ _ _
  have hhtml : htmlExists h = false →
      29 ∉ outputKinds (isServer h) (isProduction h) (cssModuleExists h)
        (cssIndexExists h) (htmlExists h) o.inject o.esModule := by
    intro hH
    have key : ∀ s p m i j e : Bool, 29 ∉ outputKinds s p m i false j e := by decide
    rw [hH]
    exact key _ _ _ _ _ _
  have hdev : isProduction h = false →
      fileFragment h.resourcePath ∈ r.outputs ∧ namedExportsCheck ∈ r.outputs
        ∧ (htmlExists h = true → functionalCheck (vueName h) ∈ r.outputs) := by
    intro hP
    have hsub : ∀ x, x ∈ developmentCode h → x ∈ r.outputs := by
      intro x hx
      rw [ho]
      simp [hx]
    refine ⟨hsub _ ?_, hsub _ ?_, fun hH => hsub _ ?_⟩
    · cases hH : htmlExists h <;> simp [developmentCode, hP, hH]
    · cases hH : htmlExists h <;> simp [developmentCode, hP, hH]
    · simp [developmentCode, hP, hH]
  refine ⟨r, hr, ?_, ?_, ?_, ?_, ?_, he⟩
  · constructor
    · intro hm
      cases hP : isProduction h
      · rfl
      · exact absurd hm
          (flags_not_mem h o r hr _ 27 (kind_fileFragment _) (hprod hP 27 (by simp)))
    · exact fun hP => (hdev hP).1
  · constructor
    · intro hm
      cases hP : isProduction h
      · rfl
      · exact absurd hm
          (flags_not_mem h o r hr _ 28 kind_namedExportsCheck (hprod hP 28 (by simp)))
    · exact fun hP => (hdev hP).2.1
  · constructor
    · intro hm
      cases hP : isProduction h
      · cases hH : htmlExists h
        · exact absurd hm (flags_not_mem h o r hr _ 29 (kind_functionalCheck _) (hhtml hH))
        · exact ⟨rfl, rfl⟩
      · exact absurd hm
          (flags_not_mem h o r hr _ 29 (kind_functionalCheck _) (hprod hP 29 (by simp)))
    · exact fun hPH => (hdev hPH.1).2.2 hPH.2
  · intro hP
    exact ⟨fun p => flags_not_mem h o r hr _ 27 (kind_fileFragment p) (hprod hP 27 (by simp)),
      fun n => flags_not_mem h o r hr _ 29 (kind_functionalCheck n) (hprod hP 29 (by simp))⟩
  · intro hH n
    exact flags_not_mem h o r hr _ 29 (kind_functionalCheck n) (hhtml hH)

theorem development_diagnostics_witness :
    ∃ r, loader productionHost {} = Except.ok r
      ∧ (∀ p, fileFragment p ∉ r.outputs) ∧ namedExportsCheck ∉ r.outputs := by
  obtain ⟨r, hr, -, h2, -, h4, -⟩ := development_diagnostics productionHost {} (by decide)
  exact ⟨r, hr, (h4 (by decide)).1, fun hm => by have := h2.mp hm; revert this; decide⟩

/-- C17: the call of the normalizer is pushed as the opening, then, each after its
comment, the script argument, the template argument, the styles argument and the scope
id, in this order.  The script argument is the require of the script file through the
resolved js loader, with `(injections)` applied exactly when `options.inject` is truthy;
the template argument is the require of `index.html` through the resolved html loader
when that file exists and `null` otherwise; the scope id is always `null`. -/
theorem normalizer_call_shape (h : Host) (o : Options)
    (hx : extractorMissing h o = false) :
    ∃ r ls, loader h o = Except.ok r ∧ loaders h o = Except.ok ls
      ∧ [componentOpen (h.stringifyRequest ("!" ++ h.componentNormalizerPath)),
          "/* script */",
          getRequire h ls.js h.resourcePath ++ (if o.inject then "(injections)" else "") ++ ",",
          "/* template */",
          (if htmlExists h then getRequire h ls.html (htmlFilePath h) else "null") ++ ",",
          "/* styles */",
          (if cssModuleExists h || cssIndexExists h then "injectStyle" else "null") ++ ",",
          "/* scopeId */",
          "null,"] <:+: r.outputs
      ∧ fragmentAfter "/* scopeId */" r.outputs = some "null,"
      ∧ fragmentAfter "/* styles */" r.outputs =
          some ((if cssModuleExists h || cssIndexExists h then "injectStyle" else "null") ++ ",")
      ∧ (normalizerArguments r.outputs).take 4 =
          [getRequire h ls.js h.resourcePath ++ (if o.inject then "(injections)" else "") ++ ",",
           (if htmlExists h then getRequire h ls.html (htmlFilePath h) else "null") ++ ",",
           (if cssModuleExists h || cssIndexExists h then "injectStyle" else "null") ++ ",",
           "null,"] := by
  obtain ⟨ls, hl⟩ := loaders_ok h o hx
  obtain ⟨r, hr, ho, -⟩ := loader_of_loaders h o ls hl
  refine ⟨r, ls, hr, hl, ?_, ?_, stylesArgument_eq h o r hr, ?_⟩
  · rw [ho, normalizerCall_eq]
    refine ⟨(styleBlock h (moduleId h o) ls).outputs,
      ["/* moduleIdentifier (server only) */",
        if isServer h then jsonString (h.hash h.request) else "null", ")"]
        ++ (developmentCode h
          ++ (if o.inject then []
              else
                hotReloadCode h (moduleId h o) (styleBlock h (moduleId h o) ls).cssModules
                  ++ [if o.esModule then esModuleExport else plainExport])), ?_⟩
    cases o.inject <;> cases htmlExists h <;> simp
  · rw [ho, normalizerCall_eq]
    simp only [List.append_assoc]
    rw [fragmentAfter_append _ _ (not_mem_of_kind (kinds_styleBlock h _ ls) ?_)]
    · have h1 := ne_of_kind_ne
        (a := componentOpen (h.stringifyRequest ("!" ++ h.componentNormalizerPath)))
        (b := "/* scopeId */") (by rw [kind_componentOpen, kind_scopeIdComment]; decide)
      have h3 : ∀ s, getRequire h ls.js h.resourcePath ++ s ≠ "/* scopeId */" := fun s =>
        ne_of_kind_ne (by rw [kind_getRequire, kind_scopeIdComment]; decide)
      have h4 : ∀ s t, getRequire h ls.js h.resourcePath ++ s ++ t ≠ "/* scopeId */" :=
        fun s t => ne_of_kind_ne (by rw [kind_getRequire_inject, kind_scopeIdComment]; decide)
      have h5 : ∀ s, getRequire h ls.html (htmlFilePath h) ++ s ≠ "/* scopeId */" := fun s =>
        ne_of_kind_ne (by rw [kind_getRequire, kind_scopeIdComment]; decide)
      cases hJ : o.inject <;> cases hH : htmlExists h <;>
        cases hC : (cssModuleExists h || cssIndexExists h) <;>
        simp [fragmentAfter, h1, h3, h4, h5]
    · rw [kind_scopeIdComment]
      cases isServer h <;> cases isProduction h <;> cases cssModuleExists h <;>
        cases cssIndexExists h <;> decide
  · rw [normalizerArguments_eq h o ls r hl hr]
    cases o.inject <;> cases htmlExists h <;> simp

theorem normalizer_call_shape_witness :
    ∃ r, loader styledHost { inject := true } = Except.ok r
      ∧ fragmentAfter "/* scopeId */" r.outputs = some "null,"
      ∧ fragmentAfter "/* styles */" r.outputs = some "injectStyle," := by
  obtain ⟨r, ls, hr, -, -, h2, h3, -⟩ :=
    normalizer_call_shape styledHost { inject := true } (by decide)
  exact ⟨r, hr, h2, h3⟩

/-- C18: in the loader as written `this.emitError` is never called: `handleStyle` runs
once with the name `$style` when `module.css` exists and once without a name when
`index.css` exists, so the registry is undefined or holds the single key `$style`, the
duplicate-name branch is not taken, and `index.css` is injected in plain mode. -/
theorem duplicate_branch_unreachable (h : Host) (o : Options)
    (hx : extractorMissing h o = false) :
    ∃ r ls, loader h o = Except.ok r ∧ loaders h o = Except.ok ls
      ∧ r.errors = []
      ∧ (∀ n, duplicateNameError n ∉ r.errors)
      ∧ r.cssModules = (if cssModuleExists h then some ["$style"] else none)
      ∧ (cssIndexExists h = true →
          invokeStyle (isServer h) true (getRequire h ls.css (cssIndexFilePath h))
            ∈ r.styleInjectionCodes)
      ∧ r.outputs.count cssModulesDecl ≤ 1 := by
  obtain ⟨ls, hl⟩ := loaders_ok h o hx
  obtain ⟨r, hr, -, -, hc, hm, he, -⟩ := loader_of_loaders h o ls hl
  refine ⟨r, ls, hr, hl, he, ?_, ?_, ?_, ?_⟩
  · intro n
    rw [he]
    exact List.not_mem_nil _
  · rw [hm, styleBlock_cssModules]
  · intro hI
    rw [hc, styleBlock_codes, hI]
    simp
  · have h3 := List.count_le_count_map r.outputs kind cssModulesDecl
    rw [kinds_outputs h o r hr, kind_cssModulesDecl] at h3
    have key : ∀ s p m i t j e : Bool, (outputKinds s p m i t j e).count 1 ≤ 1 := by decide
    have h4 := key (isServer h) (isProduction h) (cssModuleExists h) (cssIndexExists h)
      (htmlExists h) o.inject o.esModule
    omega

theorem duplicate_branch_unreachable_witness :
    ∃ r, loader styledHost {} = Except.ok r ∧ r.errors = []
      ∧ r.cssModules = some ["$style"] := by
  obtain ⟨r, ls, hr, -, h1, -, h3, -⟩ := duplicate_branch_unreachable styledHost {} (by decide)
  exact ⟨r, hr, h1, h3.trans (by decide)⟩

/-! ## Declarations before uses -/

theorem declaredFirst_sound (decl use : Nat) (l : List String) :
    ∀ (seen : Bool), declaredFirst decl use seen (l.map kind) = true →
      ∀ (j : Nat) (b : String), l[j]? = some b → kind b = use →
        seen = true ∨ ∃ (i : Nat) (a : String), i < j ∧ l[i]? = some a ∧ kind a = decl := by
  induction l with
  | nil =>
    intro seen _ j b hj
    simp at hj
  | cons x t ih =>
    intro seen hc j b hj hb
    simp only [List.map_cons, declaredFirst, Bool.and_eq_true, Bool.or_eq_true,
      bne_iff_ne, ne_eq, beq_iff_eq] at hc
    cases j with
    | zero =>
      simp only [List.getElem?_cons_zero, Option.some.injEq] at hj
      subst hj
      rcases hc.1 with h1 | h1
      · exact absurd hb h1
      · exact Or.inl h1
    | succ j =>
      simp only [List.getElem?_cons_succ] at hj
      rcases ih (seen || kind x == decl) (by simpa using hc.2) j b hj hb with h1 | ⟨i, a, hi, ha, hk⟩
      · simp only [Bool.or_eq_true, beq_iff_eq] at h1
        rcases h1 with h1 | h1
        · exact Or.inl h1
        · exact Or.inr ⟨0, x, Nat.succ_pos j, List.getElem?_cons_zero, h1⟩
      · exact Or.inr ⟨i + 1, a, Nat.succ_lt_succ hi, by simpa using ha, hk⟩

theorem declaredBefore_of_kinds {l : List String} {ks : List Nat} (hl : l.map kind = ks)
    (a b : String) (ka kb : Nat) (hka : kind a = ka) (hkb : kind b = kb)
    (hfirst : declaredFirst ka kb false ks = true) (hcount : ks.count ka ≤ 1)
    (ha : ka ∈ ks → a ∈ l) : declaredBefore a b l := by
  intro j hj
  subst hl
  rcases declaredFirst_sound ka kb l false hfirst j b hj hkb with h1 | ⟨i, x, hi, hx, hk⟩
  · cases h1
  · have hxl : x ∈ l := List.mem_iff_getElem?.mpr ⟨i, hx⟩
    have hal : a ∈ l := ha (hk ▸ List.mem_map_of_mem kind hxl)
    have : x = a := mem_kind_unique hcount hxl hal hk hka
    exact ⟨i, hi, this ▸ hx⟩

theorem outputKinds_declared (s p m i t j e : Bool) :
    (∀ du ∈ [(0, 5), (0, 31), (1, 8), (1, 9), (1, 13), (1, 30), (4, 24), (15, 24), (3, 25),
        (25, 27), (25, 28), (25, 29), (25, 10), (25, 30), (25, 11), (25, 12), (25, 32)],
        declaredFirst du.1 du.2 false (outputKinds s p m i t j e) = true)
      ∧ (∀ k ∈ [0, 1, 3, 4, 15, 25], (outputKinds s p m i t j e).count k ≤ 1)
      ∧ (0 ∈ outputKinds s p m i t j e → (!s && !p) = true)
      ∧ (1 ∈ outputKinds s p m i t j e → m = true)
      ∧ (4 ∈ outputKinds s p m i t j e → (m || i) = true)
      ∧ (15 ∈ outputKinds s p m i t j e → (m || i) = true)
      ∧ (31 ∈ outputKinds s p m i t j e → (!s && !p) = true ∧ j = false)
      ∧ (outputKinds s p m i t j e).count 31 ≤ 1
      ∧ (m = true → ∀ u ∈ [6, 7, 31], declaredFirst 1 u false (outputKinds s p m i t j e) = true) := by
  revert s p m i t j e
  decide

theorem kinds_codes (h : Host) (mid : String) (ls : Loaders) :
    (styleBlock h mid ls).styleInjectionCodes.map kind =
      injectorKinds (isServer h) (isProduction h) (cssModuleExists h) (cssIndexExists h) := by
  rw [styleBlock_codes]
  unfold needsHotReload injectorKinds
  cases hS : isServer h <;> cases hP : isProduction h <;> cases hM : cssModuleExists h <;>
    cases hI : cssIndexExists h <;>
    simp [kind_scratchDecl, kind_injectStyleHead, kind_disposedGuard, kind_invokeStyle_require,
      kind_invokeStyle_registry, kind_invokeStyle_assign, kind_invokeStyle_server,
      kind_bindFragment, kind_accessorFragment, kind_injectStyleClose]

theorem injectorKinds_declared (s p m i : Bool) :
    declaredFirst 2 7 false (injectorKinds s p m i) = true
      ∧ (injectorKinds s p m i).count 2 ≤ 1
      ∧ (2 ∈ injectorKinds s p m i → s = true ∧ (m || i) = true) := by
  revert s p m i
  decide

/-- C19: in the fragments the loader pushes, for every build mode, options and files:
the guard and the dispose handler, which use `disposed`, come after
`var disposed = false;`; the accept fragment, the binding, the assignment, the registry
read, the accessor, the constructor invalidation and the dispose handler that stores the
registry, which use `cssModules`, come after `var cssModules = {};`, which is pushed at
most once; in the injector body every capture through `i` comes after `var i;`;
`injectStyle,` comes after the head and the closing brace of the definition; the script
argument has `(injections)` appended only with `options.inject`, when the returned text
is the factory with the parameter `injections`; and every fragment that uses `Component`
comes after the closing parenthesis of the normalizer call, itself after the opening
`var Component = require(...)(`. -/
theorem declarations_precede_uses (h : Host) (o : Options)
    (hx : extractorMissing h o = false) :
    ∃ r ls, loader h o = Except.ok r ∧ loaders h o = Except.ok ls
      ∧ declaredBefore disposedFlag disposedGuard r.outputs
      ∧ (∀ b, declaredBefore disposedFlag (hotDispose b) r.outputs)
      ∧ r.outputs.count cssModulesDecl ≤ 1
      ∧ (∀ p n q m, declaredBefore cssModulesDecl (acceptFragment p n q m) r.outputs)
      ∧ (∀ n q, declaredBefore cssModulesDecl (bindFragment n q) r.outputs)
      ∧ (∀ s n, declaredBefore cssModulesDecl (invokeStyle s true (assignCode n)) r.outputs)
      ∧ (∀ s n, declaredBefore cssModulesDecl (invokeStyle s true (registryCode n)) r.outputs)
      ∧ (∀ n, declaredBefore cssModulesDecl (accessorFragment n) r.outputs)
      ∧ declaredBefore cssModulesDecl ctorInvalidation r.outputs
      ∧ declaredBefore cssModulesDecl (hotDispose true) r.outputs
      ∧ (∀ code, declaredBefore scratchDecl (invokeStyle true true code) r.styleInjectionCodes)
      ∧ declaredBefore injectStyleHead "injectStyle," r.outputs
      ∧ declaredBefore injectStyleClose "injectStyle," r.outputs
      ∧ (normalizerArguments r.outputs).head? =
          some ((if o.inject then getRequire h ls.js h.resourcePath ++ "(injections)"
                 else getRequire h ls.js h.resourcePath) ++ ",")
      ∧ (o.inject = true → r.text = injectFactory (String.intercalate "\n" r.outputs))
      ∧ declaredBefore (componentOpen (h.stringifyRequest ("!" ++ h.componentNormalizerPath)))
          ")" r.outputs
      ∧ (∀ p, declaredBefore ")" (fileFragment p) r.outputs)
      ∧ declaredBefore ")" namedExportsCheck r.outputs
      ∧ (∀ n, declaredBefore ")" (functionalCheck n) r.outputs)
      ∧ (∀ m, declaredBefore ")" (hotHead m) r.outputs)
      ∧ declaredBefore ")" ctorInvalidation r.outputs
      ∧ (∀ m, declaredBefore ")" (hotReload m) r.outputs)
      ∧ declaredBefore ")" esModuleExport r.outputs
      ∧ declaredBefore ")" plainExport r.outputs := by
  obtain ⟨ls, hl⟩ := loaders_ok h o hx
  obtain ⟨r, hr, ho, ht, hc, -⟩ := loader_of_loaders h o ls hl
  have hK := kinds_outputs h o r hr
  obtain ⟨hfirst, hcount, h0, h1, h4, h15, h31, hc31, hmod⟩ :=
    outputKinds_declared (isServer h) (isProduction h) (cssModuleExists h) (cssIndexExists h)
      (htmlExists h) o.inject o.esModule
  -- where the declarations are
  have hstyle : ∀ x, x ∈ (styleBlock h (moduleId h o) ls).outputs → x ∈ r.outputs := by
    intro x hx
    rw [ho]
    simp [hx]
  have hcall : ∀ x, x ∈ normalizerCall h o ls → x ∈ r.outputs := by
    intro x hx
    rw [ho]
    simp [hx]
  have mFlag : 0 ∈ outputKinds (isServer h) (isProduction h) (cssModuleExists h)
      (cssIndexExists h) (htmlExists h) o.inject o.esModule → disposedFlag ∈ r.outputs := by
    intro hm
    apply hstyle
    have hN : needsHotReload h = true := h0 hm
    rw [styleBlock_outputs, hN]
    simp
  have mDecl : 1 ∈ outputKinds (isServer h) (isProduction h) (cssModuleExists h)
      (cssIndexExists h) (htmlExists h) o.inject o.esModule → cssModulesDecl ∈ r.outputs := by
    intro hm
    apply hstyle
    rw [styleBlock_outputs, h1 hm]
    simp
  have mHead : 4 ∈ outputKinds (isServer h) (isProduction h) (cssModuleExists h)
      (cssIndexExists h) (htmlExists h) o.inject o.esModule → injectStyleHead ∈ r.outputs := by
    intro hm
    apply hstyle
    rw [styleBlock_outputs, styleBlock_codes, h4 hm]
    simp
  have mClose : 15 ∈ outputKinds (isServer h) (isProduction h) (cssModuleExists h)
      (cssIndexExists h) (htmlExists h) o.inject o.esModule → injectStyleClose ∈ r.outputs := by
    intro hm
    apply hstyle
    rw [styleBlock_outputs, styleBlock_codes, h15 hm]
    simp
  have mOpen : componentOpen (h.stringifyRequest ("!" ++ h.componentNormalizerPath))
      ∈ r.outputs := by
    apply hcall
    rw [normalizerCall_eq]
    simp
  have mParen : ")" ∈ r.outputs := by
    apply hcall
    rw [normalizerCall_eq]
    simp
  -- the general step
  have step : ∀ (a b : String) (ka kb : Nat), kind a = ka → kind b = kb →
      (ka, kb) ∈ [(0, 5), (0, 31), (1, 8), (1, 9), (1, 13), (1, 30), (4, 24), (15, 24), (3, 25),
        (25, 27), (25, 28), (25, 29), (25, 10), (25, 30), (25, 11), (25, 12), (25, 32)] →
      ka ∈ [0, 1, 3, 4, 15, 25] →
      (ka ∈ outputKinds (isServer h) (isProduction h) (cssModuleExists h)
        (cssIndexExists h) (htmlExists h) o.inject o.esModule → a ∈ r.outputs) →
      declaredBefore a b r.outputs := by
    intro a b ka kb hka hkb hpair hk hmem
    exact declaredBefore_of_kinds hK a b ka kb hka hkb (hfirst (ka, kb) hpair) (hcount ka hk) hmem
  -- uses of the registry that share their kind with other fragments
  have stepMod : ∀ (b : String) (kb : Nat), kind b = kb → kb ∈ [6, 7, 31] →
      (b ∈ r.outputs → cssModuleExists h = true) →
      declaredBefore cssModulesDecl b r.outputs := by
    intro b kb hkb hk hM j hj
    have hM' := hM (List.getElem?_mem hj)
    exact declaredBefore_of_kinds hK cssModulesDecl b 1 kb kind_cssModulesDecl hkb
      (hmod hM' kb hk) (hcount 1 (by simp)) mDecl j hj
  have hdispose : hotDispose true ∈ r.outputs → cssModuleExists h = true := by
    intro hm
    have hk31 : 31 ∈ outputKinds (isServer h) (isProduction h) (cssModuleExists h)
        (cssIndexExists h) (htmlExists h) o.inject o.esModule :=
      mem_map_kind hK hm |> (kind_hotDispose true ▸ ·)
    obtain ⟨hN, hJ⟩ := h31 hk31
    have hN' : needsHotReload h = true := hN
    have hthere : hotDispose (cssModuleExists h) ∈ r.outputs := by
      rw [ho, hJ, hotReloadCode_eq, hN', styleBlock_cssModules]
      cases cssModuleExists h <;> simp
    have e := mem_kind_unique (hK ▸ hc31) hm hthere (kind_hotDispose _) (kind_hotDispose _)
    cases hM : cssModuleExists h
    · rw [hM] at e
      exact absurd e (by decide)
    · rfl
  refine ⟨r, ls, hr, hl, ?_, ?_, ?_, ?_, ?_, ?_, ?_, ?_, ?_, ?_, ?_, ?_, ?_, ?_, ?_, ?_, ?_,
    ?_, ?_, ?_, ?_, ?_, ?_, ?_⟩
  · exact step _ _ 0 5 kind_disposedFlag kind_disposedGuard (by simp) (by simp) mFlag
  · exact fun b => step _ _ 0 31 kind_disposedFlag (kind_hotDispose b) (by simp) (by simp) mFlag
  · have h3 := List.count_le_count_map r.outputs kind cssModulesDecl
    rw [hK, kind_cssModulesDecl] at h3
    exact h3.trans (hcount 1 (by simp))
  · exact fun p n q m =>
      step _ _ 1 8 kind_cssModulesDecl (kind_acceptFragment p n q m) (by simp) (by simp) mDecl
  · exact fun n q =>
      step _ _ 1 9 kind_cssModulesDecl (kind_bindFragment n q) (by simp) (by simp) mDecl
  · intro s n
    cases s
    · exact stepMod _ 6 (kind_invokeStyle_assign n) (by simp)
        (fun hm => (assign_code_cases h o ls r hl hr false n hm).1)
    · exact stepMod _ 7 (kind_invokeStyle_server _) (by simp)
        (fun hm => (assign_code_cases h o ls r hl hr true n hm).1)
  · intro s n
    cases s
    · exact stepMod _ 6 (kind_invokeStyle_registry n) (by simp)
        (fun hm => (registry_code_cases h o ls r hl hr false n hm).1)
    · exact stepMod _ 7 (kind_invokeStyle_server _) (by simp)
        (fun hm => (registry_code_cases h o ls r hl hr true n hm).1)
  · exact fun n =>
      step _ _ 1 13 kind_cssModulesDecl (kind_accessorFragment n) (by simp) (by simp) mDecl
  · exact step _ _ 1 30 kind_cssModulesDecl kind_ctorInvalidation (by simp) (by simp) mDecl
  · exact stepMod _ 31 (kind_hotDispose true) (by simp) hdispose
  · intro code
    obtain ⟨g1, g2, g3⟩ := injectorKinds_declared (isServer h) (isProduction h)
      (cssModuleExists h) (cssIndexExists h)
    rw [hc]
    refine declaredBefore_of_kinds (kinds_codes h _ ls) scratchDecl _ 2 7 kind_scratchDecl
      (kind_invokeStyle_server code) g1 g2 ?_
    intro hm
    obtain ⟨hS, hC⟩ := g3 hm
    rw [styleBlock_codes, hC, hS]
    simp
  · exact step _ _ 4 24 kind_injectStyleHead kind_injectStyleComma (by simp) (by simp) mHead
  · exact step _ _ 15 24 kind_injectStyleClose kind_injectStyleComma (by simp) (by simp) mClose
  · rw [normalizerArguments_eq h o ls r hl hr]
    rfl
  · intro hJ
    rw [ht, hJ]
    rfl
  · exact step _ _ 3 25 (kind_componentOpen _) kind_closeParen (by simp) (by simp)
      (fun _ => mOpen)
  · exact fun p =>
      step _ _ 25 27 kind_closeParen (kind_fileFragment p) (by simp) (by simp) (fun _ => mParen)
  · exact step _ _ 25 28 kind_closeParen kind_namedExportsCheck (by simp) (by simp)
      (fun _ => mParen)
  · exact fun n =>
      step _ _ 25 29 kind_closeParen (kind_functionalCheck n) (by simp) (by simp)
        (fun _ => mParen)
  · exact fun m =>
      step _ _ 25 10 kind_closeParen (kind_hotHead m) (by simp) (by simp) (fun _ => mParen)
  · exact step _ _ 25 30 kind_closeParen kind_ctorInvalidation (by simp) (by simp)
      (fun _ => mParen)
  · exact fun m =>
      step _ _ 25 11 kind_closeParen (kind_hotReload m) (by simp) (by simp) (fun _ => mParen)
  · exact step _ _ 25 12 kind_closeParen kind_esModuleExport (by simp) (by simp)
      (fun _ => mParen)
  · exact step _ _ 25 32 kind_closeParen kind_plainExport (by simp) (by simp) (fun _ => mParen)

theorem declarations_precede_uses_witness :
    ∃ r, loader styledHost {} = Except.ok r
      ∧ declaredBefore disposedFlag disposedGuard r.outputs
      ∧ declaredBefore cssModulesDecl ctorInvalidation r.outputs
      ∧ declaredBefore ")" plainExport r.outputs := by
  obtain ⟨r, ls, hr, -, h1, -, -, -, -, -, -, -, h9, -, -, -, -, -, -, -, -, -, -, -, -, -, -,
    h26⟩ := declarations_precede_uses styledHost {} (by decide)
  exact ⟨r, hr, h1, h9, h26⟩

/-- C20: with `options.extractCSS` truthy, no `extract` function on it and
extract-text-webpack-plugin not resolvable, the loader throws the missing peer
dependency error whatever `options.loaders` holds, an override of the css loader
included: the default loaders are built, and fail, before the overrides are applied. -/
theorem missing_extractor_ignores_overrides (h : Host) (o : Options)
    (hE : o.extractCSS = ExtractCSS.truthy) (hT : h.extractTextPlugin = none) :
    ∀ ov : LoaderOverrides,
      defaultLoaders h { o with loaders := ov } = Except.error missingExtractorMessage
        ∧ loaders h { o with loaders := ov } = Except.error missingExtractorMessage
        ∧ loader h { o with loaders := ov } = Except.error missingExtractorMessage := by
  intro ov
  have hd : defaultLoaders h { o with loaders := ov }
      = Except.error missingExtractorMessage := by
    simp [defaultLoaders, getCSSExtractLoader, hE, hT]
  have hl : loaders h { o with loaders := ov } = Except.error missingExtractorMessage := by
    simp [loaders, hd]
  exact ⟨hd, hl, by simp [loader, hl]⟩

theorem missing_extractor_ignores_overrides_witness :
    loader devHost
        { extractCSS := ExtractCSS.truthy, loaders := { css := some "style-loader!css-loader" } }
      = Except.error missingExtractorMessage :=
  (missing_extractor_ignores_overrides devHost { extractCSS := ExtractCSS.truthy } rfl rfl
    { css := some "style-loader!css-loader" }).2.2

end VueMultifileLoader
